import Mathlib

/-!
# Shallow embedding of the SPARC wire-EDM simulator core

This file embeds the physics-update pipeline of the SPARC repository
(`src/wedm`) in Lean 4 and proves properties of the embedded code.

Numeric conventions: Python floats are modelled as real numbers (`ℝ`), with
`np.exp`, `np.log` and `np.pi` modelled by `Real.exp`, `Real.log` and
`Real.pi`; integer microsecond counters are modelled as `ℕ`; Python `None`
is modelled by `Option`.  Mutation of the shared `EDMState` record and of
each module's private attributes is modelled by explicit state passing:
a module update takes the module-internal record and the process state and
returns the new pair.  Random draws (`self.env.np_random.random()`,
`uniform`) are modelled as explicit real-valued inputs.
-/

noncomputable section

/-- Python truthiness of `x or d` for an optional float `x`: `None` and
`0.0` are falsy, so both fall back to the default `d`.  Used for
`state.target_voltage or default`, `state.ON_time or default`, etc. -/
def pyOr (x : Option ℝ) (d : ℝ) : ℝ :=
  match x with
  | none => d
  | some v => if v = 0 then d else v

/-- The discharge status 3-tuple `state.spark_status = [code, location, duration]`
(`src/wedm/core/state.py`): `code` is 0 = idle, 1 = spark, -1 = short pulse,
-2 = rest; `location` is the axial spark location or `None`; `duration` is the
elapsed time in the current state. -/
structure SparkStatus where
  code : ℤ
  location : Option ℝ
  duration : ℝ
deriving DecidableEq

/-- Embeds `EDMState` (`src/wedm/core/state.py`): the single mutable process-state
record, with the dataclass defaults. -/
structure EDMState where
  time : ℕ := 0
  time_since_servo : ℕ := 0
  time_since_open_voltage : ℕ := 0
  time_since_spark_ignition : ℕ := 0
  time_since_spark_end : ℕ := 0
  voltage : Option ℝ := none
  current : Option ℝ := none
  target_voltage : Option ℝ := none
  current_mode : Option String := none
  OFF_time : Option ℝ := none
  ON_time : Option ℝ := none
  workpiece_position : ℝ := 0
  wire_position : ℝ := 0
  wire_velocity : ℝ := 0
  wire_unwinding_velocity : ℝ := 1/5
  wire_temperature : List ℝ := []
  time_in_critical_temp : ℕ := 0
  wire_average_temperature : Option ℝ := none
  spark_status : SparkStatus := ⟨0, none, 0⟩
  dielectric_conductivity : ℝ := 0
  dielectric_temperature : ℝ := 0
  debris_concentration : ℝ := 0
  dielectric_flow_rate : ℝ := 0
  ionized_channel : Option (Option ℝ × ℤ) := none
  debris_volume : ℝ := 0
  debris_density : ℝ := 0
  cavity_volume : ℝ := 0
  flow_rate : ℝ := 0
  last_crater_volume : ℝ := 0
  is_short_circuit : Bool := false
  is_wire_broken : Bool := false
  is_wire_colliding : Bool := false
  is_target_distance_reached : Bool := false
  target_delta : ℝ := 0
  target_position : ℝ := 500

/-- Embeds `EnvironmentConfig` (`src/wedm/core/env_config.py`) with its defaults. -/
structure EnvironmentConfig where
  workpiece_height : ℝ := 20
  wire_diameter : ℝ := 1/5
  wire_material : String := "brass"
  dt : ℕ := 1
  servo_interval : ℕ := 1000
  initial_gap : ℝ := 50
  target_cutting_distance : ℝ := 500
  max_wire_temperature : ℝ := 1500
  min_gap_for_operation : ℝ := 2
  max_cutting_force : ℝ := 100

/-- Embeds `IgnitionModuleParameters` (`src/wedm/modules/ignition.py`) with its
defaults. -/
structure IgnitionModuleParameters where
  base_critical_density : ℝ := 3/10
  gap_coefficient : ℝ := 1/50
  max_critical_density : ℝ := 19/20
  hard_short_gap : ℝ := 2
  sigmoid_steepness : ℝ := 500
  debris_short_duration : ℕ := 50
  random_short_duration : ℕ := 100
  random_short_min_gap : ℝ := 2
  random_short_max_gap : ℝ := 50
  random_short_max_probability : ℝ := 0
  ignition_a_coeff : ℝ := 48/100
  ignition_b_coeff : ℝ := -369/100
  ignition_c_coeff : ℝ := 1405/100
  default_target_voltage : ℝ := 80
  default_on_time : ℝ := 3
  default_off_time : ℝ := 80
  default_current_mode : String := "I5"
  spark_voltage_factor : ℝ := 3/10

/-- The mutable attributes of `IgnitionModule` besides its parameters:
the two short-circuit countdowns and the current-mode cache
(`src/wedm/modules/ignition.py`, `__init__`).  The `lambda_cache` dict is
omitted: caching a pure function by exact argument does not change any
returned value, so `get_lambda` is embedded as the cached formula itself. -/
structure IgnitionInternal where
  random_short_remaining : ℕ := 0
  debris_short_remaining : ℕ := 0
  cached_current_mode : Option String := none
  cached_current_value : ℝ := 60

/-- Modelled from the spec: the static current-mode table
`src/wedm/modules/currents.json` is not among the sources (only the loading
code in `IgnitionModule._load_currents_data` is).  Per the spec, "peak
current is looked up from a static current-mode table (mode → amperes)".
The table is modelled as an abstract total lookup `tbl` (the amperes for a
mode) together with a membership predicate `hasMode` (Python
`current_mode in self.currents_data`). -/
structure CurrentsTable where
  tbl : String → ℝ
  hasMode : String → Bool

/-- Embeds `IgnitionModule._get_current_from_mode`: current-mode lookup with
caching.  Recomputes only when the passed mode differs from the cached one;
`None` and unknown modes fall back to the default mode. -/
def getCurrentFromMode (ct : CurrentsTable) (p : IgnitionModuleParameters)
    (m : IgnitionInternal) (mode : Option String) : IgnitionInternal × ℝ :=
  if mode = m.cached_current_mode then (m, m.cached_current_value)
  else
    let mode1 := mode.getD p.default_current_mode
    let mode2 := if ct.hasMode mode1 then mode1 else p.default_current_mode
    let v := ct.tbl mode2
    ({ m with cached_current_mode := some mode2, cached_current_value := v }, v)

/-- Embeds `IgnitionModule._get_debris_short_probability`: sigmoid short-circuit
probability in the debris density, with a hard short (probability 1) below
`hard_short_gap` and overflow guards at exponent ±500. -/
def getDebrisShortProbability (p : IgnitionModuleParameters) (gap ρ : ℝ) : ℝ :=
  if gap < p.hard_short_gap then 1
  else
    let critical_density :=
      min (p.base_critical_density + p.gap_coefficient * gap) p.max_critical_density
    let exponent := -p.sigmoid_steepness * (ρ - critical_density)
    if exponent > 500 then 0
    else if exponent < -500 then 1
    else 1 / (1 + Real.exp exponent)

/-- The gap-dependent random short-circuit probability computed inline in
`IgnitionModule._update_short_circuit_detection`: maximal below
`random_short_min_gap`, zero at or above `random_short_max_gap`, linearly
interpolated in between. -/
def randomShortProbability (p : IgnitionModuleParameters) (gap : ℝ) : ℝ :=
  if gap ≥ p.random_short_max_gap then 0
  else if gap ≤ p.random_short_min_gap then p.random_short_max_probability
  else
    (1 - (gap - p.random_short_min_gap) /
        (p.random_short_max_gap - p.random_short_min_gap)) *
      p.random_short_max_probability

/-- Embeds `IgnitionModule._update_short_circuit_detection`.  `r1` and `r2` are the
two `np_random.random()` draws (debris roll, then random roll), each in
`[0, 1)`.  An active countdown of either kind keeps `is_short_circuit` set
and is decremented; otherwise the debris roll and then the random roll are
taken, a success latching the corresponding countdown. -/
def updateShortCircuitDetection (p : IgnitionModuleParameters)
    (m : IgnitionInternal) (s : EDMState) (r1 r2 : ℝ) :
    IgnitionInternal × EDMState :=
  let gap := max 0 (s.workpiece_position - s.wire_position)
  let ρ := s.debris_density
  if 0 < m.random_short_remaining then
    ({ m with random_short_remaining := m.random_short_remaining - 1 },
     { s with is_short_circuit := true })
  else if 0 < m.debris_short_remaining then
    ({ m with debris_short_remaining := m.debris_short_remaining - 1 },
     { s with is_short_circuit := true })
  else
    if r1 < getDebrisShortProbability p gap ρ then
      ({ m with debris_short_remaining := p.debris_short_duration },
       { s with is_short_circuit := true })
    else if r2 < randomShortProbability p gap then
      ({ m with random_short_remaining := p.random_short_duration },
       { s with is_short_circuit := true })
    else (m, { s with is_short_circuit := false })

/-- The denominator `a·gap² + b·gap + c` of the ignition probability
(`IgnitionModule.get_lambda`, `src/wedm/modules/ignition.py` lines 355-361). -/
def lambdaDenominator (p : IgnitionModuleParameters) (gap : ℝ) : ℝ :=
  p.ignition_a_coeff * gap ^ 2 + p.ignition_b_coeff * gap + p.ignition_c_coeff

/-- The ignition probability value `λ = ln 2 / (a·gap² + b·gap + c)` computed
by `IgnitionModule.get_lambda` for a given gap. -/
def lambdaValue (p : IgnitionModuleParameters) (gap : ℝ) : ℝ :=
  Real.log 2 / lambdaDenominator p gap

/-- The error message raised by `get_lambda` during a short circuit. -/
def getLambdaMessage : String := "get_lambda called during short circuit condition."

/-- Embeds `IgnitionModule.get_lambda`: raises (`Except.error`) when called while
`is_short_circuit` is set, otherwise returns `λ` at the raw gap
`workpiece_position - wire_position` (note: not clamped to 0 here).  The
method assigns no field of `state`, so the embedding returns the state
unchanged alongside the result. -/
def getLambda (p : IgnitionModuleParameters) (s : EDMState) :
    Except String ℝ × EDMState :=
  if s.is_short_circuit then (Except.error getLambdaMessage, s)
  else
    (Except.ok (lambdaValue p (s.workpiece_position - s.wire_position)), s)

/-- Embeds `IgnitionModule._should_ignite`: no ignition during a short circuit,
otherwise a Bernoulli trial of the `np_random.random()` draw `r` against
`get_lambda` (whose short-circuit guard cannot fire here). -/
def shouldIgnite (p : IgnitionModuleParameters) (s : EDMState) (r : ℝ) : Bool :=
  if s.is_short_circuit then false
  else decide (r < lambdaValue p (s.workpiece_position - s.wire_position))

/-- Embeds `IgnitionModule._get_target_voltage` (Python `or` falls back on `None`
and on `0.0`). -/
def getTargetVoltage (p : IgnitionModuleParameters) (s : EDMState) : ℝ :=
  pyOr s.target_voltage p.default_target_voltage

/-- Embeds `IgnitionModule._get_on_time`. -/
def getOnTime (p : IgnitionModuleParameters) (s : EDMState) : ℝ :=
  pyOr s.ON_time p.default_on_time

/-- Embeds `IgnitionModule._get_off_time`. -/
def getOffTime (p : IgnitionModuleParameters) (s : EDMState) : ℝ :=
  pyOr s.OFF_time p.default_off_time

/-- Embeds `IgnitionModule._handle_idle_state`.  `rIgnite` is the ignition-roll
draw; `loc` is the `np_random.uniform(0, workpiece_height)` draw for the
spark location. -/
def handleIdleState (p : IgnitionModuleParameters) (ct : CurrentsTable)
    (m : IgnitionInternal) (s : EDMState) (rIgnite loc : ℝ) :
    IgnitionInternal × EDMState :=
  let s1 := { s with current := some 0 }
  if s1.is_short_circuit then
    let mc := getCurrentFromMode ct p m s1.current_mode
    (mc.1, { s1 with spark_status := ⟨-1, none, 0⟩, current := some mc.2 })
  else
    let s2 := { s1 with voltage := some (getTargetVoltage p s1) }
    if shouldIgnite p s2 rIgnite then
      let mc := getCurrentFromMode ct p m s2.current_mode
      (mc.1, { s2 with
          spark_status := ⟨1, some loc, 0⟩,
          voltage := some (getTargetVoltage p s2 * p.spark_voltage_factor),
          current := some mc.2 })
    else (m, s2)

/-- Embeds `IgnitionModule._handle_spark_state`. -/
def handleSparkState (p : IgnitionModuleParameters) (ct : CurrentsTable)
    (m : IgnitionInternal) (s : EDMState) : IgnitionInternal × EDMState :=
  let dur := s.spark_status.duration + 1
  let s1 := { s with spark_status := { s.spark_status with duration := dur } }
  if dur ≥ getOnTime p s1 then
    let s2 := { s1 with
        spark_status := { s1.spark_status with code := -2 },
        current := some 0 }
    if s2.is_short_circuit then (m, s2) else (m, { s2 with voltage := some 0 })
  else
    let mc := getCurrentFromMode ct p m s1.current_mode
    let s2 := { s1 with current := some mc.2 }
    if s2.is_short_circuit then (mc.1, s2)
    else
      (mc.1, { s2 with
          voltage := some (getTargetVoltage p s2 * p.spark_voltage_factor) })

/-- Embeds `IgnitionModule._handle_short_state`. -/
def handleShortState (p : IgnitionModuleParameters) (ct : CurrentsTable)
    (m : IgnitionInternal) (s : EDMState) : IgnitionInternal × EDMState :=
  let dur := s.spark_status.duration + 1
  let s1 := { s with spark_status := { s.spark_status with duration := dur } }
  if dur ≥ getOnTime p s1 then
    (m, { s1 with
        spark_status := { s1.spark_status with code := -2 },
        current := some 0 })
  else
    let mc := getCurrentFromMode ct p m s1.current_mode
    (mc.1, { s1 with current := some mc.2 })

/-- Embeds `IgnitionModule._handle_rest_state`. -/
def handleRestState (p : IgnitionModuleParameters)
    (m : IgnitionInternal) (s : EDMState) : IgnitionInternal × EDMState :=
  let dur := s.spark_status.duration + 1
  let s1 := { s with spark_status := { s.spark_status with duration := dur } }
  let total := getOnTime p s1 + getOffTime p s1
  if dur ≥ total then
    let s2 := { s1 with spark_status := ⟨0, none, 0⟩, current := some 0 }
    if s2.is_short_circuit then (m, s2)
    else (m, { s2 with voltage := some (getTargetVoltage p s2) })
  else
    let s2 := { s1 with current := some 0 }
    if s2.is_short_circuit then (m, s2)
    else (m, { s2 with voltage := some 0 })

/-- The four random draws an `IgnitionModule.update` call may consume, in
program order: the debris-short roll, the random-short roll, the
ignition roll, and the uniform spark-location draw. -/
structure IgnitionDraws where
  shortDebris : ℝ
  shortRandom : ℝ
  ignite : ℝ
  location : ℝ

/-- Embeds `IgnitionModule.update`: short-circuit detection, then forcing voltage
to 0 under a short, then the discharge state machine dispatched on
`spark_status[0]`. -/
def ignitionUpdate (p : IgnitionModuleParameters) (ct : CurrentsTable)
    (m : IgnitionInternal) (s : EDMState) (d : IgnitionDraws) :
    IgnitionInternal × EDMState :=
  let ms1 := updateShortCircuitDetection p m s d.shortDebris d.shortRandom
  let m1 := ms1.1
  let s1 := ms1.2
  let s2 := if s1.is_short_circuit then { s1 with voltage := some 0 } else s1
  if s2.spark_status.code = 0 then handleIdleState p ct m1 s2 d.ignite d.location
  else if s2.spark_status.code = 1 then handleSparkState p ct m1 s2
  else if s2.spark_status.code = -1 then handleShortState p ct m1 s2
  else if s2.spark_status.code = -2 then handleRestState p m1 s2
  else (m1, s2)

/-- Embeds `DielectricModuleParameters` (`src/wedm/modules/dielectric.py`) with its
defaults. -/
structure DielectricModuleParameters where
  base_flow_rate : ℝ := 100
  debris_removal_efficiency : ℝ := 1/100
  debris_obstruction_coeff : ℝ := 1
  reference_gap : ℝ := 25
  dielectric_temperature : ℝ := 29315/100
  ion_channel_duration : ℤ := 6

/-- The constants `DielectricModule.__init__` precomputes from the module
parameters and the environment geometry. -/
structure DielectricConsts where
  cavity_volume_coeff : ℝ
  debris_removal_per_us : ℝ

/-- Embeds `DielectricModule.__init__` derivation of the precomputed constants:
`cavity_volume_coeff = π · wire_radius · workpiece_height` (radius =
`wire_diameter / 2`) and `debris_removal_per_us = efficiency ·
base_flow_rate · 1e-6`. -/
def DielectricConsts.ofConfig (p : DielectricModuleParameters)
    (wire_diameter workpiece_height : ℝ) : DielectricConsts :=
  { cavity_volume_coeff := Real.pi * (wire_diameter / 2) * workpiece_height
    debris_removal_per_us :=
      p.debris_removal_efficiency * p.base_flow_rate * (1 / 1000000) }

/-- The mutable attributes of `DielectricModule`: running debris state,
the legacy ionized channel, and the flow-condition cache keys, with the
`__init__` values. -/
structure DielectricInternal where
  debris_volume : ℝ := 0
  cavity_volume : ℝ := 0
  debris_density : ℝ := 0
  flow_condition : ℝ := 0
  ion_channel : Option (Option ℝ × ℤ) := none
  last_gap_um : ℝ := -1
  last_debris_density : ℝ := -1
  last_flow_condition : ℝ := 0

/-- Embeds `fast_exp` (`src/wedm/modules/dielectric.py` lines 34-41): an
approximation of `exp(-x)` for `x ≥ 0` — the Padé quotient
`(1 - x/2) / (1 + x/2)` for `x < 0.5` and `np.exp(-x)` otherwise. -/
def fast_exp (x : ℝ) : ℝ :=
  if x < 1/2 then (1 - (1/2) * x) / (1 + (1/2) * x) else Real.exp (-x)

/-- The debris factor of the flow condition exactly as `DielectricModule.update`
computes it (lines 121-129): `fast_exp` when `coeff · density < 2.0`,
`np.exp(-coeff · density)` otherwise. -/
def debrisFactorCode (p : DielectricModuleParameters) (ρ : ℝ) : ℝ :=
  if p.debris_obstruction_coeff * ρ < 2 then
    fast_exp (p.debris_obstruction_coeff * ρ)
  else Real.exp (-(p.debris_obstruction_coeff * ρ))

/-- The gap actually used by `DielectricModule.update`:
`max(0.001, workpiece_position - wire_position)` in µm. -/
def dielGapUm (s : EDMState) : ℝ :=
  max (1/1000) (s.workpiece_position - s.wire_position)

/-- The cavity volume computed by `DielectricModule.update`:
`cavity_volume_coeff · gap_mm` with the gap converted to mm. -/
def dielCavity (c : DielectricConsts) (s : EDMState) : ℝ :=
  c.cavity_volume_coeff * (dielGapUm s * (1/1000))

/-- The fresh-spark condition of `DielectricModule.update`: the discharge
just entered the active-spark state and the material module supplied a
positive crater volume. -/
def dielFresh (s : EDMState) : Prop :=
  s.spark_status.code = 1 ∧ s.spark_status.duration = 0 ∧
    0 < s.last_crater_volume

instance (s : EDMState) : Decidable (dielFresh s) := by
  unfold dielFresh; infer_instance

/-- The debris volume of `DielectricModule.update` after the fresh-spark
addition and before flow removal. -/
def dielFreshVolume (m : DielectricInternal) (s : EDMState) : ℝ :=
  if dielFresh s then m.debris_volume + s.last_crater_volume
  else m.debris_volume

/-- The debris density computed by `DielectricModule.update`:
`min(1, debris_volume / cavity_volume)`, 0 for a nonpositive cavity. -/
def dielDensity (c : DielectricConsts) (m : DielectricInternal)
    (s : EDMState) : ℝ :=
  if 0 < dielCavity c s then min 1 (dielFreshVolume m s / dielCavity c s)
  else 0

/-- The flow-condition cache-miss condition of `DielectricModule.update`:
the gap or the debris density moved beyond the caching thresholds since the
last recomputation. -/
def dielRecompute (c : DielectricConsts) (m : DielectricInternal)
    (s : EDMState) : Prop :=
  1/100 < |dielGapUm s - m.last_gap_um| ∨
    1/1000 < |dielDensity c m s - m.last_debris_density|

instance (c : DielectricConsts) (m : DielectricInternal) (s : EDMState) :
    Decidable (dielRecompute c m s) := by
  unfold dielRecompute; infer_instance

/-- The flow condition as recomputed on a cache miss by
`DielectricModule.update`: the Poiseuille-like gap factor times the
`fast_exp`-based debris factor. -/
def dielFlowFormula (p : DielectricModuleParameters) (c : DielectricConsts)
    (m : DielectricInternal) (s : EDMState) : ℝ :=
  min 1 ((dielGapUm s / p.reference_gap) ^ 3) *
    debrisFactorCode p (dielDensity c m s)

/-- Embeds `DielectricModule.update` (`src/wedm/modules/dielectric.py` lines
82-163): cavity volume from the gap, debris addition on a fresh spark with
positive crater volume, debris density, cached flow-condition
recomputation, flow-driven debris removal, ionized-channel countdown, and
the sync of the module fields into the process state. -/
def dielectricUpdate (p : DielectricModuleParameters) (c : DielectricConsts)
    (m : DielectricInternal) (s : EDMState) : DielectricInternal × EDMState :=
  let s0 := { s with dielectric_temperature := p.dielectric_temperature }
  let gap_um := dielGapUm s0
  let cavity := dielCavity c s0
  let dv1 := dielFreshVolume m s0
  let ion1 := if dielFresh s0 then
      some (s0.spark_status.location, p.ion_channel_duration)
    else m.ion_channel
  let density := dielDensity c m s0
  let recompute := dielRecompute c m s0
  let flow := if recompute then dielFlowFormula p c m s0
    else m.last_flow_condition
  let lg := if recompute then gap_um else m.last_gap_um
  let ld := if recompute then density else m.last_debris_density
  let lf := if recompute then flow else m.last_flow_condition
  let dv2 := if 1/1000 < flow ∧ 1/1000 < dv1 then
      max 0 (dv1 - c.debris_removal_per_us * flow)
    else dv1
  let ion2 := match ion1 with
    | some (y, t) => if 1 < t then some (y, t - 1) else none
    | none => none
  let m1 : DielectricInternal :=
    { debris_volume := dv2, cavity_volume := cavity, debris_density := density,
      flow_condition := flow, ion_channel := ion2, last_gap_um := lg,
      last_debris_density := ld, last_flow_condition := lf }
  let s1 := { s0 with
      debris_volume := dv2, debris_density := density, cavity_volume := cavity,
      flow_rate := flow, debris_concentration := density,
      dielectric_flow_rate := flow * p.base_flow_rate / 1000000000,
      ionized_channel := ion2 }
  (m1, s1)

/-- The flow-condition formula as the spec states it (claim C6):
`min(1, (gap/reference_gap)³) × exp(−debris_obstruction_coeff × debris_density)`
with an exact exponential.  Written from the spec's words for comparison
with the embedded code, which uses `fast_exp` instead. -/
def flowConditionSpecFormula (p : DielectricModuleParameters) (gap ρ : ℝ) : ℝ :=
  min 1 ((gap / p.reference_gap) ^ 3) *
    Real.exp (-(p.debris_obstruction_coeff * ρ))

/-- Embeds `MechanicsModuleParameters` (`src/wedm/modules/mechanics.py`) with its
defaults. -/
structure MechanicsModuleParameters where
  omega_n : ℝ := 235
  zeta : ℝ := 38/100
  max_acceleration : ℝ := 300000
  max_jerk : ℝ := 100000000
  max_speed : ℝ := 30000

/-- The control-mode dispatch of `MechanicsModule` (`"position"` or
`"velocity"`, validated at construction). -/
inductive ControlMode where
  | position
  | velocity
deriving DecidableEq

/-- The constants `MechanicsModule.__init__` precomputes: `dt` converted
from µs to s, the position-law coefficients, and `max_jerk · dt`. -/
structure MechanicsConsts where
  dt : ℝ
  damping_coeff : ℝ
  stiffness_coeff : ℝ
  max_jerk_dt : ℝ

/-- Embeds `MechanicsModule.__init__` derivation of the precomputed constants from
the parameters and the configured timestep `dtUs` (µs):
`dt = dtUs · 1e-6`, `damping_coeff = -2·ζ·ωₙ`, `stiffness_coeff = -ωₙ²`,
`max_jerk_dt = max_jerk · dt`. -/
def MechanicsConsts.ofParams (p : MechanicsModuleParameters) (dtUs : ℝ) :
    MechanicsConsts :=
  { dt := dtUs * (1/1000000)
    damping_coeff := -2 * p.zeta * p.omega_n
    stiffness_coeff := -(p.omega_n ^ 2)
    max_jerk_dt := p.max_jerk * (dtUs * (1/1000000)) }

/-- Embeds `MechanicsModule._compute_position_accel`: the source computes
`x_error = x - (x + state.target_delta)` against the current position `x`
every call, then `damping_coeff · v + stiffness_coeff · x_error`. -/
def computePositionAccel (c : MechanicsConsts) (target_delta x v : ℝ) : ℝ :=
  c.damping_coeff * v + c.stiffness_coeff * (x - (x + target_delta))

/-- Embeds `MechanicsModule._compute_velocity_accel`:
`-ωₙ · (v - target_delta)`. -/
def computeVelocityAccel (p : MechanicsModuleParameters)
    (target_delta v : ℝ) : ℝ :=
  -p.omega_n * (v - target_delta)

/-- The position-control law as the spec states it (claim C5):
`-2ζωₙ·v - ωₙ²·(x - x_target)` where `x_target = x_tick + target_delta` and
`x_tick` is the wire position at the control tick when the action was
applied, held constant until the next action.  Written from the spec's
words for comparison with the embedded code. -/
def specPositionAccel (zeta omega x_tick target_delta x v : ℝ) : ℝ :=
  -2 * zeta * omega * v - omega ^ 2 * (x - (x_tick + target_delta))

/-- Embeds `MechanicsModule.update`: nominal acceleration from the dispatched
control law, clamped to `±max_acceleration`; jerk limiting of the change
from `prev_accel` to `±max_jerk_dt`; explicit-Euler velocity update clamped
to `±max_speed`; explicit-Euler position update.  Returns the new
`prev_accel` (the applied acceleration) and the state with the new
velocity and position. -/
def mechanicsUpdate (mode : ControlMode) (p : MechanicsModuleParameters)
    (c : MechanicsConsts) (prev_accel : ℝ) (s : EDMState) : ℝ × EDMState :=
  let x := s.wire_position
  let v := s.wire_velocity
  let a_nom := match mode with
    | ControlMode.position => computePositionAccel c s.target_delta x v
    | ControlMode.velocity => computeVelocityAccel p s.target_delta v
  let a_clip := if a_nom > p.max_acceleration then p.max_acceleration
    else if a_nom < -p.max_acceleration then -p.max_acceleration
    else a_nom
  let da := a_clip - prev_accel
  let da2 := if da > c.max_jerk_dt then c.max_jerk_dt
    else if da < -c.max_jerk_dt then -c.max_jerk_dt
    else da
  let a := prev_accel + da2
  let v1 := v + a * c.dt
  let v2 := if v1 > p.max_speed then p.max_speed
    else if v1 < -p.max_speed then -p.max_speed
    else v1
  let x1 := x + v2 * c.dt
  (a, { s with wire_velocity := v2, wire_position := x1 })

/-- The sequence of applied accelerations produced by a run of
`MechanicsModule.update` calls threading `prev_accel` (which starts at 0 at
construction), one call per element of `ss` (the process states seen by the
successive calls). -/
def mechanicsAccels (mode : ControlMode) (p : MechanicsModuleParameters)
    (c : MechanicsConsts) : List EDMState → ℝ → List ℝ
  | [], _ => []
  | s :: rest, prev =>
      let a := (mechanicsUpdate mode p c prev s).1
      a :: mechanicsAccels mode p c rest a

/-- Embeds `WireMaterial` (`src/wedm/core/material_db.py`): wire material
properties. -/
structure WireMaterial where
  density : ℝ
  specific_heat : ℝ
  thermal_conductivity : ℝ
  electrical_resistivity : ℝ
  temperature_coefficient : ℝ
  melting_point : ℝ
  breaking_temperature : ℝ

/-- The built-in default `"brass"` entry of the material database
(`MaterialDatabase._create_default_wire_materials`). -/
def brassMaterial : WireMaterial :=
  { density := 8400, specific_heat := 377, thermal_conductivity := 120
    electrical_resistivity := 64/1000000000
    temperature_coefficient := 39/10000
    melting_point := 1173, breaking_temperature := 1500 }

/-- Embeds `WireModuleParameters` (`src/wedm/modules/wire.py`) with its defaults. -/
structure WireModuleParameters where
  buffer_len_bottom : ℝ := 30
  buffer_len_top : ℝ := 30
  segment_len : ℝ := 1/5
  spool_T : ℝ := 29315/100
  contact_offset_bottom : ℝ := 10
  contact_offset_top : ℝ := 10
  base_convection_coefficient : ℝ := 14000
  plasma_efficiency : ℝ := 1/10
  convection_velocity_factor : ℝ := 1/2
  convection_flow_enhancement : ℝ := 1
  compute_zone_mean : Bool := false
  zone_mean_interval : ℕ := 100
  critical_temp_threshold : ℝ := 9/10
  wire_breaking_temp_factor : ℝ := 11/10

/-- The geometric and material constants `WireModule.__init__` derives once
from the parameters, the configuration, and the wire material. -/
structure WireConsts where
  n_segments : ℕ
  zone_start : ℕ
  zone_end : ℕ
  S : ℝ
  A : ℝ
  k_cond_coeff : ℝ
  joule_geom_factor : ℝ
  rho_elec : ℝ
  alpha_rho : ℝ
  temp_update_factor : ℝ
  actual_zone_start : ℕ
  actual_zone_end : ℕ
  zone_size : ℕ
  critical_temperature : ℝ
  breaking_temperature : ℝ
  contact_bottom_idx : ℕ
  contact_top_idx : ℕ

/-- Embeds `WireModule.__init__` derivation of the geometric constants (the Python
`int(...)` truncations of nonnegative quantities are floors).  Exact real
arithmetic stands in for the float divisions feeding the truncations. -/
def WireConsts.ofConfig (p : WireModuleParameters) (cfg : EnvironmentConfig)
    (mat : WireMaterial) : WireConsts :=
  let total_L := p.buffer_len_bottom + cfg.workpiece_height + p.buffer_len_top
  let n := max 1 (Int.toNat ⌊total_L / p.segment_len⌋)
  let zs0 := Int.toNat ⌊p.buffer_len_bottom / p.segment_len⌋
  let ze0 := min (zs0 + Int.toNat ⌊cfg.workpiece_height / p.segment_len⌋) n
  let zs := min zs0 ze0
  let r_wire := cfg.wire_diameter / 2
  let delta_y := p.segment_len * (1/1000)
  let S := Real.pi * (r_wire * (1/1000)) ^ 2
  let A := 2 * Real.pi * (r_wire * (1/1000)) * delta_y
  let denom := mat.density * mat.specific_heat * S * delta_y
  let azs := min zs (n - 1)
  let aze := min ze0 n
  let cb0 := max 0 (Int.toNat ⌊(p.buffer_len_bottom - p.contact_offset_bottom) / p.segment_len⌋)
  let ct0 := min (n - 1)
    (Int.toNat ⌊(p.buffer_len_bottom + cfg.workpiece_height + p.contact_offset_top) / p.segment_len⌋)
  { n_segments := n, zone_start := zs, zone_end := ze0
    S := S, A := A
    k_cond_coeff := mat.thermal_conductivity * S / delta_y
    joule_geom_factor := if S ≠ 0 then delta_y / S else 0
    rho_elec := mat.electrical_resistivity
    alpha_rho := mat.temperature_coefficient
    temp_update_factor := (1/1000000) / denom
    actual_zone_start := azs, actual_zone_end := aze
    zone_size := if azs < aze then aze - azs else 1
    critical_temperature := mat.melting_point * p.critical_temp_threshold
    breaking_temperature := mat.breaking_temperature
    contact_bottom_idx := min cb0 (zs - 1)
    contact_top_idx := min (n - 1) (max ct0 ze0) }

/-- The mutable attributes of `WireModule`: the cached per-segment
convection coefficients, the flow-condition cache key, and the zone-mean
cache, with the `__init__` values (`h_eff_zone` starts as `np.zeros`). -/
structure WireInternal where
  h_eff_zone : List ℝ
  last_zone_mean : ℝ
  last_flow_condition : ℝ := 0
  zone_mean_counter : ℕ := 0

/-- Embeds `WireModule._update_convection_coefficients`: base coefficient enhanced
by wire travel speed (floored) and, inside the workpiece zone, by the flow
condition. -/
def computeHeffZone (p : WireModuleParameters) (c : WireConsts)
    (vel flow : ℝ) : List ℝ :=
  let ve := max (-(9/10)) (p.convection_velocity_factor * vel)
  let hb0 := p.base_convection_coefficient * (1 + ve)
  let hb := max hb0 ((1/10) * p.base_convection_coefficient)
  let he := hb * (1 + p.convection_flow_enhancement * flow)
  (List.range c.n_segments).map fun i =>
    if c.actual_zone_start ≤ i ∧ i < c.actual_zone_end then he else hb

/-- Embeds `np.max` of a nonempty temperature array (`np.max(T)` in
`_check_wire_breaking`); 0 for the empty list, which the module never
produces (`n_segments ≥ 1`). -/
def listMax : List ℝ → ℝ
  | [] => 0
  | x :: xs => xs.foldl max x

/-- The arithmetic mean of a list (`np.mean`). -/
def listMean (l : List ℝ) : ℝ := l.sum / l.length

/-- Embeds `WireModule._compute_zone_mean_fast`. -/
def computeZoneMeanFast (c : WireConsts) (T : List ℝ) : ℝ :=
  if 0 < c.zone_size ∧ c.actual_zone_end ≤ T.length then
    listMean ((T.drop c.actual_zone_start).take (c.actual_zone_end - c.actual_zone_start))
  else listMean T

/-- Embeds `compute_thermal_update` (`src/wedm/modules/wire.py` lines 58-123): one
explicit forward-Euler step of the 1-D heat equation.  The spool boundary
condition is applied to segment 0 before the rate computation and re-applied
after the update; conduction uses the symmetric second difference inside and
a one-sided difference at the last segment; Joule heating applies between
the contact segments when `I² > 1e-6`, with temperature-dependent
resistivity; plasma heat is lumped at `plasma_idx`; convection and upwind
advection apply per segment. -/
def computeThermalUpdate (c : WireConsts) (spool_T I_squared : ℝ)
    (plasma_idx : ℤ) (plasma_heat : ℝ) (h_eff_zone : List ℝ)
    (dielectric_temp adv_coeff : ℝ) (T0 : List ℝ) : List ℝ :=
  let n := c.n_segments
  let T := T0.set 0 spool_T
  let g := fun i : ℕ => T.getD i 0
  let rate := fun i : ℕ =>
    let conduction :=
      if 1 < n then
        if 1 ≤ i ∧ i < n - 1 then
          c.k_cond_coeff * (g (i - 1) - 2 * g i + g (i + 1))
        else if i = n - 1 then c.k_cond_coeff * (g (n - 2) - g (n - 1))
        else 0
      else 0
    let joule :=
      if 1/1000000 < I_squared ∧ c.contact_bottom_idx ≤ i ∧ i ≤ c.contact_top_idx then
        c.joule_geom_factor * I_squared * c.rho_elec *
          (1 + c.alpha_rho * (g i - 29315/100))
      else 0
    let plasma := if (i : ℤ) = plasma_idx then plasma_heat else 0
    let convection := (h_eff_zone.getD i 0) * c.A * (g i - dielectric_temp)
    let advection :=
      if 1/1000000000 < |adv_coeff| ∧ 1 ≤ i then
        adv_coeff * (g (i - 1) - g i)
      else 0
    conduction + joule + plasma - convection + advection
  (List.range n).map fun i =>
    if i = 0 then spool_T else g i + rate i * c.temp_update_factor

/-- Embeds `WireModule.update` (`src/wedm/modules/wire.py` lines 259-347): no-op
once the wire is broken; resizes the temperature field to spool temperature
if its length is wrong; refreshes the convection-coefficient cache when the
flow condition moved by more than 0.01; computes the plasma index/heat for
an active located spark; computes the advection coefficient; runs the
thermal step; checks critical-temperature dwell and wire breaking; and
maintains the zone-mean cadence. -/
def wireUpdate (p : WireModuleParameters) (c : WireConsts)
    (mat : WireMaterial) (w : WireInternal) (s : EDMState) :
    WireInternal × EDMState :=
  if s.is_wire_broken then (w, s)
  else
    let T := if s.wire_temperature.length ≠ c.n_segments then
        List.replicate c.n_segments p.spool_T
      else s.wire_temperature
    let I := pyOr s.current 0
    let I_squared := I * I
    let refreshHeff := 1/100 < |s.flow_rate - w.last_flow_condition|
    let h_eff := if refreshHeff then
        computeHeffZone p c s.wire_unwinding_velocity s.flow_rate
      else w.h_eff_zone
    let lastF := if refreshHeff then s.flow_rate else w.last_flow_condition
    let pl : ℤ × ℝ :=
      if s.spark_status.code = 1 ∧ s.spark_status.location.isSome then
        let y := s.spark_status.location.getD 0
        let idx : ℤ := if p.segment_len ≠ 0 then
            (c.zone_start : ℤ) + ⌊y / p.segment_len⌋
          else (c.zone_start : ℤ)
        if 0 ≤ idx ∧ idx < (c.n_segments : ℤ) then
          (idx, p.plasma_efficiency * s.voltage.getD 0 * I)
        else (idx, 0)
      else (-1, 0)
    let adv_coeff := if 1/1000000 < |s.wire_unwinding_velocity| then
        mat.density * mat.specific_heat * |s.wire_unwinding_velocity| * c.S
      else 0
    let T1 := computeThermalUpdate c p.spool_T I_squared pl.1 pl.2 h_eff
      s.dielectric_temperature adv_coeff T
    let maxT := listMax T1
    let tcrit := if c.critical_temperature < maxT then
        s.time_in_critical_temp + 1
      else 0
    let broken := if c.breaking_temperature < maxT then true else s.is_wire_broken
    let zres : ℝ × ℕ × Option ℝ :=
      if p.compute_zone_mean then
        if p.zone_mean_interval ≤ w.zone_mean_counter + 1 then
          let zm := computeZoneMeanFast c T1
          (zm, 0, some zm)
        else (w.last_zone_mean, w.zone_mean_counter + 1, some w.last_zone_mean)
      else (w.last_zone_mean, w.zone_mean_counter, s.wire_average_temperature)
    ({ h_eff_zone := h_eff, last_zone_mean := zres.1,
       last_flow_condition := lastF, zone_mean_counter := zres.2.1 },
     { s with
        wire_temperature := T1
        time_in_critical_temp := tcrit
        is_wire_broken := broken
        wire_average_temperature := zres.2.2 })

/-- Modelled from the spec: `MaterialRemovalModule.update`
(`src/wedm/modules/material.py` is not among the sources; only its import
and its call site in the step loop are).  Per the spec (§4.5), the module
converts an active, non-short spark event into an erosion crater volume
deposited against the workpiece, updating workpiece advance and supplying
the debris module's input (`state.last_crater_volume`); its volumetric law
is a configurable function, required only to be nonzero during active
non-short sparks.  The law is abstracted as the parameters `craterLaw`
(crater volume) and `advanceLaw` (workpiece advance). -/
def materialUpdate (craterLaw advanceLaw : EDMState → ℝ) (s : EDMState) :
    EDMState :=
  if s.spark_status.code = 1 then
    { s with
        last_crater_volume := craterLaw s
        workpiece_position := s.workpiece_position + advanceLaw s }
  else s

/-- The construction-time values of the `WireModule` caches
(`self.h_eff_zone = np.zeros(...)`, `self._last_zone_mean = spool_T`,
`self._last_flow_condition = 0.0`, `self.zone_mean_counter = 0`). -/
def WireInternal.init (p : WireModuleParameters) (c : WireConsts) : WireInternal :=
  { h_eff_zone := List.replicate c.n_segments 0, last_zone_mean := p.spool_T }

/-- The `generator_control` part of a step action
(`WireEDMEnv._apply_action`): target voltage, integer current mode (1-19),
ON time and OFF time. -/
structure GeneratorControl where
  target_voltage : ℝ
  current_mode : ℤ
  on_time : ℝ
  off_time : ℝ

/-- A step action: the servo scalar and the generator control record. -/
structure EDMAction where
  servo : ℝ
  generator_control : GeneratorControl

/-- Embeds `WireEDMEnv._apply_action`: writes the action into the process state,
converting the integer mode to the `"I<n>"` string. -/
def applyAction (a : EDMAction) (s : EDMState) : EDMState :=
  { s with
      target_delta := a.servo
      target_voltage := some a.generator_control.target_voltage
      current_mode := some ("I" ++ toString a.generator_control.current_mode)
      ON_time := some a.generator_control.on_time
      OFF_time := some a.generator_control.off_time }

/-- Embeds `WireEDMEnv._check_termination`: wire broken when the wire position
exceeds the workpiece position by more than 100, target reached when the
workpiece position reaches the target position. -/
def checkTermination (s : EDMState) : Bool × EDMState :=
  if s.workpiece_position + 100 < s.wire_position then
    (true, { s with is_wire_broken := true })
  else if s.target_position ≤ s.workpiece_position then
    (true, { s with is_target_distance_reached := true })
  else (false, s)

/-- Embeds `WireEDMEnv.reset`: a fresh `EDMState()` with
`workpiece_position = config.initial_gap` and
`target_position = config.target_cutting_distance` (and every other field
at its dataclass default, including the empty `wire_temperature` array).
The returned observation is the `_get_obs()` placeholder; the state
snapshot is the environment's new state. -/
def WireEDMEnv.reset (cfg : EnvironmentConfig) : EDMState :=
  { workpiece_position := cfg.initial_gap
    target_position := cfg.target_cutting_distance }

/-- The module-internal state owned by the environment's five modules plus
the mechanics `prev_accel`, threaded through `step`. -/
structure EnvInternal where
  ignition : IgnitionInternal
  dielectric : DielectricInternal
  wire : WireInternal
  mechanics_prev_accel : ℝ

/-- The immutable module bundle of a constructed `WireEDMEnv`: each
module's parameters and derived constants, the current-mode table, the
mechanics control mode, the wire material, and the spec-modelled material
removal laws. -/
structure EnvModules where
  ignitionParams : IgnitionModuleParameters
  currents : CurrentsTable
  dielectricParams : DielectricModuleParameters
  dielectricConsts : DielectricConsts
  mechanicsMode : ControlMode
  mechanicsParams : MechanicsModuleParameters
  mechanicsConsts : MechanicsConsts
  wireParams : WireModuleParameters
  wireConsts : WireConsts
  wireMat : WireMaterial
  craterLaw : EDMState → ℝ
  advanceLaw : EDMState → ℝ

/-- The `info` dict returned by `WireEDMEnv.step`: the early wire-broken
return carries only `wire_broken`; the normal return carries all keys. -/
structure StepInfo where
  wire_broken : Bool
  target_reached : Option Bool
  spark_state : Option ℤ
  time : Option ℕ
  control_step : Option Bool

/-- The 5-tuple returned by `WireEDMEnv.step`.  The observation is the
`_get_obs()` placeholder dict (modelled by `Unit`) or `None` off control
ticks; `_calc_reward()` is the constant-0 placeholder. -/
structure StepResult where
  obs : Option Unit
  reward : ℝ
  terminated : Bool
  truncated : Bool
  info : StepInfo

/-- Embeds `WireEDMEnv._get_obs` placeholder. -/
def getObs (_ : EDMState) : Unit := ()

/-- Embeds `WireEDMEnv._calc_reward` placeholder. -/
def calcReward (_ : EDMState) : ℝ := 0

/-- Embeds `WireEDMEnv.step` (`src/wedm/envs/wire_edm.py` lines 116-157): applies
the pending action and zeroes `time_since_servo` on a control tick
(`time_since_servo ≥ servo_interval`); runs Ignition → Material →
Dielectric → Wire; returns early on a broken wire (skipping mechanics and
the time bookkeeping); otherwise runs Mechanics, advances the time
counters and the spark-duration counters, checks termination, and returns
the observation and reward only on control ticks. -/
def WireEDMEnv.step (cfg : EnvironmentConfig) (M : EnvModules)
    (d : IgnitionDraws) (a : EDMAction) (env : EnvInternal) (s : EDMState) :
    StepResult × EnvInternal × EDMState :=
  let is_ctrl := cfg.servo_interval ≤ s.time_since_servo
  let s0 := if is_ctrl then { applyAction a s with time_since_servo := 0 } else s
  let ig := ignitionUpdate M.ignitionParams M.currents env.ignition s0 d
  let s1 := materialUpdate M.craterLaw M.advanceLaw ig.2
  let di := dielectricUpdate M.dielectricParams M.dielectricConsts env.dielectric s1
  let wi := wireUpdate M.wireParams M.wireConsts M.wireMat env.wire di.2
  let env1 : EnvInternal :=
    { ignition := ig.1, dielectric := di.1, wire := wi.1,
      mechanics_prev_accel := env.mechanics_prev_accel }
  let s2 := wi.2
  if s2.is_wire_broken then
    ({ obs := none, reward := 0, terminated := true, truncated := false,
       info := { wire_broken := true, target_reached := none,
                 spark_state := none, time := none, control_step := none } },
     env1, s2)
  else
    let me := mechanicsUpdate M.mechanicsMode M.mechanicsParams
      M.mechanicsConsts env.mechanics_prev_accel s2
    let s3 : EDMState := { me.2 with
        time := me.2.time + cfg.dt
        time_since_servo := me.2.time_since_servo + cfg.dt
        time_since_open_voltage := me.2.time_since_open_voltage + cfg.dt }
    let s4 := if s3.spark_status.code = 1 then
        { s3 with
            time_since_spark_ignition := s3.time_since_spark_ignition + cfg.dt
            time_since_spark_end := 0 }
      else
        { s3 with
            time_since_spark_end := s3.time_since_spark_end + cfg.dt
            time_since_spark_ignition := 0 }
    let term := checkTermination s4
    let s5 := term.2
    ({ obs := if is_ctrl then some (getObs s5) else none
       reward := if is_ctrl then calcReward s5 else 0
       terminated := term.1, truncated := false
       info := { wire_broken := s5.is_wire_broken
                 target_reached := some s5.is_target_distance_reached
                 spark_state := some s5.spark_status.code
                 time := some s5.time
                 control_step := some is_ctrl } },
     { env1 with mechanics_prev_accel := me.1 }, s5)

/-- A run of consecutive `WireEDMEnv.step` calls, one per (draws, action)
pair, collecting the step results and threading the internal module state
and the process state. -/
def runSteps (cfg : EnvironmentConfig) (M : EnvModules) :
    List (IgnitionDraws × EDMAction) → EnvInternal → EDMState →
    List StepResult × EnvInternal × EDMState
  | [], env, s => ([], env, s)
  | da :: rest, env, s =>
      let r := WireEDMEnv.step cfg M da.1 da.2 env s
      let rec2 := runSteps cfg M rest r.2.1 r.2.2
      (r.1 :: rec2.1, rec2.2.1, rec2.2.2)

/-- A run of consecutive `DielectricModule.update` calls, one per element
of `ss` (the process states seen by the successive calls), threading the
module-internal state. -/
def dielectricRun (p : DielectricModuleParameters) (c : DielectricConsts)
    (ss : List EDMState) (m : DielectricInternal) : DielectricInternal :=
  ss.foldl (fun acc s => (dielectricUpdate p c acc s).1) m

/-- The boundedness invariant maintained by the dielectric module's
internal state: nonnegative debris volume and density, flow condition and
its cache in `[0, 1]`, density in `[0, 1]`. -/
def DielInv (m : DielectricInternal) : Prop :=
  0 ≤ m.debris_volume ∧
  0 ≤ m.debris_density ∧ m.debris_density ≤ 1 ∧
  0 ≤ m.flow_condition ∧ m.flow_condition ≤ 1 ∧
  0 ≤ m.last_flow_condition ∧ m.last_flow_condition ≤ 1

/-- The five process-state fields written only by `_apply_action` on
control ticks: the generator settings and the servo target. -/
def genFields (s : EDMState) :
    Option ℝ × Option String × Option ℝ × Option ℝ × ℝ :=
  (s.target_voltage, s.current_mode, s.ON_time, s.OFF_time, s.target_delta)

/-- The state with the wire position moved so that the raw gap
`workpiece_position - wire_position` becomes the clamped gap
`max 0 (workpiece_position - wire_position)` (all other fields kept).
Used to express that a computation depends only on the clamped gap. -/
def clampGapState (s : EDMState) : EDMState :=
  { s with wire_position :=
      s.workpiece_position - max 0 (s.workpiece_position - s.wire_position) }

/-- A concrete currents table for witness instantiations: every mode
present, 60 A everywhere (the cached default value of the module). -/
def sampleCurrents : CurrentsTable :=
  { tbl := fun _ => 60, hasMode := fun _ => true }

/-- A concrete state with a negative raw gap (wire past the workpiece) and
no active short circuit, on which `get_lambda` can be evaluated. -/
def negGapState : EDMState :=
  { workpiece_position := 0, wire_position := 1 }

/-- A concrete process state for exercising the dielectric update: gap
exactly the reference gap (25 µm), a fresh spark, and crater volume π/50,
which yields debris density 2/5 against the default-geometry cavity. -/
def padeCaseState : EDMState :=
  { workpiece_position := 25, spark_status := ⟨1, some 10, 0⟩,
    last_crater_volume := Real.pi / 50 }

/-- The dielectric constants derived from the default parameters and the
default geometry (wire diameter 0.2 mm, workpiece height 20 mm), whose
cavity-volume coefficient is `2π`. -/
def defaultDielConsts : DielectricConsts :=
  DielectricConsts.ofConfig {} (1/5) 20

/-- A concrete module bundle for witness instantiations: default
parameters everywhere, default-geometry derived constants, position
control, brass wire, and zero material-removal laws. -/
def sampleModules : EnvModules :=
  { ignitionParams := {}
    currents := sampleCurrents
    dielectricParams := {}
    dielectricConsts := defaultDielConsts
    mechanicsMode := ControlMode.position
    mechanicsParams := {}
    mechanicsConsts := MechanicsConsts.ofParams {} 1
    wireParams := {}
    wireConsts := WireConsts.ofConfig {} {} brassMaterial
    wireMat := brassMaterial
    craterLaw := fun _ => 0
    advanceLaw := fun _ => 0 }

/-- A concrete module-internal bundle for witness instantiations, with the
construction-time values of every module. -/
def sampleEnvInternal : EnvInternal :=
  { ignition := {}
    dielectric := {}
    wire := WireInternal.init {} (WireConsts.ofConfig {} {} brassMaterial)
    mechanics_prev_accel := 0 }

end

/-! ## Theorems -/

/-- Claim C8: `IgnitionModule.get_lambda` raises exactly when the state's
`is_short_circuit` flag is set; for every state with the flag clear it
returns the ignition probability value without raising; and it modifies no
field of the state in either case. -/
theorem claim_C8_theorem (p : IgnitionModuleParameters) (s : EDMState) :
    ((getLambda p s).1 = Except.error getLambdaMessage ↔
      s.is_short_circuit = true) ∧
    ((getLambda p s).1 =
        Except.ok (lambdaValue p (s.workpiece_position - s.wire_position)) ↔
      s.is_short_circuit = false) ∧
    (getLambda p s).2 = s := by
  unfold getLambda
  cases h : s.is_short_circuit <;> simp [h]

/-- Claim C9: the state snapshot produced by `WireEDMEnv.reset` has the
workpiece position at the configured initial gap, the target position at
the configured target cutting distance, an idle discharge status
`(0, None, 0)`, and a wire temperature field all of whose elements equal
the spool temperature (after reset the field is in fact the empty array,
so the last conjunct is the equation `field = replicate (length field) spool_T`
with length 0). -/
theorem claim_C9_theorem (cfg : EnvironmentConfig) (p : WireModuleParameters) :
    (WireEDMEnv.reset cfg).workpiece_position = cfg.initial_gap ∧
    (WireEDMEnv.reset cfg).target_position = cfg.target_cutting_distance ∧
    (WireEDMEnv.reset cfg).spark_status = ⟨0, none, 0⟩ ∧
    (WireEDMEnv.reset cfg).wire_temperature =
      List.replicate (WireEDMEnv.reset cfg).wire_temperature.length p.spool_T :=
  ⟨rfl, rfl, rfl, rfl⟩

/-- Claim C5 counterexample: with the default mechanics parameters
(ζ = 0.38, ωₙ = 235), a commanded increment `target_delta = 1` applied at a
control tick where the wire was at `x_tick = 0`, and the wire now at
`x = 1` with zero velocity, the code's nominal acceleration (55225) differs
from the claim's held-setpoint law (0); the code does not hold
`x_target = x_tick + target_delta` constant. -/
theorem claim_C5_counterexample :
    computePositionAccel (MechanicsConsts.ofParams {} 1) 1 1 0 ≠
      specPositionAccel (38/100) 235 0 1 1 0 := by
  norm_num [computePositionAccel, specPositionAccel, MechanicsConsts.ofParams]

/-- Claim C5 (amended): in position control mode the nominal acceleration
computed each microsecond is `−2ζωₙ·v + ωₙ²·target_delta` — the position
error used is the constant `−target_delta`, recomputed against the
*current* wire position every call, so the law is independent of `x` and
coincides with the spec's held-setpoint law
`−2ζωₙ·v − ωₙ²·(x − (x_tick + target_delta))` exactly when `x = x_tick`
(i.e. at the control tick itself). -/
theorem claim_C5_theorem (p : MechanicsModuleParameters)
    (dtUs target_delta x v x_tick : ℝ) :
    computePositionAccel (MechanicsConsts.ofParams p dtUs) target_delta x v =
      -2 * p.zeta * p.omega_n * v + p.omega_n ^ 2 * target_delta ∧
    (x = x_tick →
      computePositionAccel (MechanicsConsts.ofParams p dtUs) target_delta x v =
        specPositionAccel p.zeta p.omega_n x_tick target_delta x v) := by
  constructor
  · simp only [computePositionAccel, MechanicsConsts.ofParams]
    ring
  · rintro rfl
    simp only [computePositionAccel, specPositionAccel, MechanicsConsts.ofParams]
    ring

/-- Witness for claim C5: the amended law evaluated at ζ = 0.38, ωₙ = 235,
`target_delta = 2`, `x = x_tick = 5`, `v = 7`. -/
theorem claim_C5_witness :
    computePositionAccel (MechanicsConsts.ofParams {} 1) 2 5 7 =
      -2 * (38/100) * 235 * 7 + 235 ^ 2 * 2 ∧
    computePositionAccel (MechanicsConsts.ofParams {} 1) 2 5 7 =
      specPositionAccel (38/100) 235 5 2 5 7 :=
  ⟨(claim_C5_theorem {} 1 2 5 7 5).1, (claim_C5_theorem {} 1 2 5 7 5).2 rfl⟩

/-- Claim C1 counterexample: with the default coefficients the λ-denominator
decreases between gap 2 and gap 3 (8.59 versus 7.30), so λ strictly
*increases* there: both gaps are at or above the hard-short threshold and
`2 < 3`, yet `λ(2) < λ(3)`, contradicting `λ(g1) ≥ λ(g2)` for `g1 < g2`. -/
theorem claim_C1_counterexample :
    ({} : IgnitionModuleParameters).hard_short_gap ≤ 2 ∧ (2 : ℝ) < 3 ∧
    lambdaValue {} 2 < lambdaValue {} 3 := by
  refine ⟨by norm_num, by norm_num, ?_⟩
  have hlog : (0 : ℝ) < Real.log 2 := Real.log_pos (by norm_num)
  have h2 : lambdaDenominator {} 2 = 859/100 := by
    norm_num [lambdaDenominator]
  have h3 : lambdaDenominator {} 3 = 73/10 := by
    norm_num [lambdaDenominator]
  unfold lambdaValue
  rw [h2, h3]
  exact div_lt_div_of_pos_left hlog (by norm_num) (by norm_num)

/-- Claim C1 (amended): with the default coefficients the denominator
`0.48·g² − 3.69·g + 14.05` is strictly positive for *every* gap (its
discriminant is negative), so λ is strictly positive and finite for every
gap at or above the hard-short threshold; but λ is nonincreasing in the gap
only from the denominator's vertex `3.69/(2·0.48) = 123/32 ≈ 3.84` µm
upward, not on all of `[hard_short_gap, ∞)`. -/
theorem claim_C1_theorem (g g1 g2 : ℝ) (h1 : 123/32 ≤ g1) (h12 : g1 ≤ g2) :
    0 < lambdaDenominator {} g ∧ 0 < lambdaValue {} g ∧
    lambdaValue {} g2 ≤ lambdaValue {} g1 := by
  have hlog : (0 : ℝ) < Real.log 2 := Real.log_pos (by norm_num)
  have hd : ∀ x : ℝ, 0 < lambdaDenominator {} x := by
    intro x
    simp only [lambdaDenominator]
    nlinarith [sq_nonneg ((96:ℝ)/100 * x - 369/100)]
  have hmono : lambdaDenominator {} g1 ≤ lambdaDenominator {} g2 := by
    simp only [lambdaDenominator]
    nlinarith [mul_nonneg (sub_nonneg.mpr h12)
      (by nlinarith : (0:ℝ) ≤ 48/100 * (g1 + g2) - 369/100)]
  refine ⟨hd g, div_pos hlog (hd g), ?_⟩
  unfold lambdaValue
  exact div_le_div_of_nonneg_left hlog.le (hd g1) hmono

/-- Witness for claim C1: the amended statement at gap 2 (positivity) and
the pair `g1 = 4 ≤ g2 = 5` (monotonicity range). -/
theorem claim_C1_witness :
    0 < lambdaDenominator {} 2 ∧ 0 < lambdaValue {} 2 ∧
    lambdaValue {} 5 ≤ lambdaValue {} 4 :=
  claim_C1_theorem 2 4 5 (by norm_num) (by norm_num)

/-- Short-circuit detection declares a short on every path when the clamped
gap is below the hard-short threshold and the debris roll is in `[0, 1)`:
active countdowns re-assert the flag, and otherwise the debris short
probability is exactly 1, which every draw below 1 satisfies. -/
theorem updateShortCircuitDetection_hard_short
    (p : IgnitionModuleParameters) (m : IgnitionInternal) (s : EDMState)
    (r1 r2 : ℝ)
    (hgap : max 0 (s.workpiece_position - s.wire_position) < p.hard_short_gap)
    (hr : r1 < 1) :
    ((updateShortCircuitDetection p m s r1 r2).2).is_short_circuit = true := by
  have hp : getDebrisShortProbability p
      (max 0 (s.workpiece_position - s.wire_position)) s.debris_density = 1 := by
    unfold getDebrisShortProbability
    rw [if_pos hgap]
  simp only [updateShortCircuitDetection]
  split_ifs with hc1 hc2 hc3 hc4 <;> first
    | rfl
    | (rw [hp] at hc3; exact absurd hr hc3)

/-- Embeds `_handle_idle_state` never writes `is_short_circuit`. -/
theorem handleIdleState_short (p : IgnitionModuleParameters)
    (ct : CurrentsTable) (m : IgnitionInternal) (s : EDMState) (r l : ℝ) :
    ((handleIdleState p ct m s r l).2).is_short_circuit = s.is_short_circuit := by
  simp only [handleIdleState]
  split_ifs <;> rfl

/-- Embeds `_handle_spark_state` never writes `is_short_circuit`. -/
theorem handleSparkState_short (p : IgnitionModuleParameters)
    (ct : CurrentsTable) (m : IgnitionInternal) (s : EDMState) :
    ((handleSparkState p ct m s).2).is_short_circuit = s.is_short_circuit := by
  simp only [handleSparkState]
  split_ifs <;> rfl

/-- Embeds `_handle_short_state` never writes `is_short_circuit`. -/
theorem handleShortState_short (p : IgnitionModuleParameters)
    (ct : CurrentsTable) (m : IgnitionInternal) (s : EDMState) :
    ((handleShortState p ct m s).2).is_short_circuit = s.is_short_circuit := by
  simp only [handleShortState]
  split_ifs <;> rfl

/-- Embeds `_handle_rest_state` never writes `is_short_circuit`. -/
theorem handleRestState_short (p : IgnitionModuleParameters)
    (m : IgnitionInternal) (s : EDMState) :
    ((handleRestState p m s).2).is_short_circuit = s.is_short_circuit := by
  simp only [handleRestState]
  split_ifs <;> rfl

/-- Claim C2: whenever the gap `workpiece_position − wire_position` is below
the hard-short threshold at the time short-circuit detection runs,
`IgnitionModule.update` sets `is_short_circuit` on that call regardless of
the debris density — the short-circuit probability is exactly 1 for such
gaps, so any debris roll in `[0, 1)` (the range of `random()`) succeeds. -/
theorem claim_C2_theorem (p : IgnitionModuleParameters) (ct : CurrentsTable)
    (m : IgnitionInternal) (s : EDMState) (d : IgnitionDraws)
    (hgap : s.workpiece_position - s.wire_position < p.hard_short_gap)
    (hthr : 0 < p.hard_short_gap) (hr : d.shortDebris < 1) :
    ((ignitionUpdate p ct m s d).2).is_short_circuit = true := by
  have hmax : max 0 (s.workpiece_position - s.wire_position) < p.hard_short_gap :=
    max_lt hthr hgap
  have hA : ((updateShortCircuitDetection p m s d.shortDebris
      d.shortRandom).2).is_short_circuit = true :=
    updateShortCircuitDetection_hard_short p m s _ _ hmax hr
  simp only [ignitionUpdate, hA, if_true]
  split_ifs <;>
    simp [handleIdleState_short, handleSparkState_short,
      handleShortState_short, handleRestState_short, hA]

/-- Witness for claim C2: the default parameters, the construction-time
module state, and the all-defaults process state (gap 0 < 2), with zero
draws. -/
theorem claim_C2_witness :
    ((ignitionUpdate {} sampleCurrents {} {} ⟨0, 0, 0, 0⟩).2).is_short_circuit
      = true :=
  claim_C2_theorem {} sampleCurrents {} {} ⟨0, 0, 0, 0⟩
    (by norm_num) (by norm_num) (by norm_num)

/-- Claim C7 counterexample: `get_lambda` does *not* clamp its gap.  On a
state with raw gap `−1` (wire 1 µm past the workpiece) and no active short,
`get_lambda` returns `ln 2 / 18.22` (the formula at gap `−1`), which
differs from the value `ln 2 / 14.05` the formula takes at the clamped gap
`max(0, −1) = 0`. -/
theorem claim_C7_counterexample :
    (getLambda {} negGapState).1 ≠
      Except.ok (lambdaValue {}
        (max 0 (negGapState.workpiece_position - negGapState.wire_position))) := by
  have hlog : (0 : ℝ) < Real.log 2 := Real.log_pos (by norm_num)
  have hlt : lambdaValue {}
      (negGapState.workpiece_position - negGapState.wire_position) <
      lambdaValue {}
        (max 0 (negGapState.workpiece_position - negGapState.wire_position)) := by
    have e1 : negGapState.workpiece_position - negGapState.wire_position
        = (-1 : ℝ) := by norm_num [negGapState]
    rw [e1, max_eq_left (by norm_num : (-1 : ℝ) ≤ 0)]
    unfold lambdaValue
    have d1 : lambdaDenominator {} (-1) = 1822/100 := by
      norm_num [lambdaDenominator]
    have d2 : lambdaDenominator {} 0 = 1405/100 := by
      norm_num [lambdaDenominator]
    rw [d1, d2]
    exact div_lt_div_of_pos_left hlog (by norm_num) (by norm_num)
  intro h
  have h0 : (getLambda {} negGapState).1 =
      Except.ok (lambdaValue {}
        (negGapState.workpiece_position - negGapState.wire_position)) := rfl
  rw [h0] at h
  exact absurd (Except.ok.inj h) (ne_of_lt hlt)

/-- Claim C7 (amended): the gap is clamped to nonnegative in the
short-circuit detection formulas — the detection outcome (new countdown
state and short flag) is invariant under replacing the raw gap by the
clamped gap — but `get_lambda` evaluates λ at the raw, unclamped gap
`workpiece_position − wire_position`. -/
theorem claim_C7_theorem (p : IgnitionModuleParameters) (m : IgnitionInternal)
    (s : EDMState) (r1 r2 : ℝ) :
    (updateShortCircuitDetection p m s r1 r2).1 =
      (updateShortCircuitDetection p m (clampGapState s) r1 r2).1 ∧
    ((updateShortCircuitDetection p m s r1 r2).2).is_short_circuit =
      ((updateShortCircuitDetection p m (clampGapState s) r1 r2).2).is_short_circuit ∧
    (s.is_short_circuit = false →
      (getLambda p s).1 =
        Except.ok (lambdaValue p (s.workpiece_position - s.wire_position))) := by
  have hmx : max 0 (max 0 (s.workpiece_position - s.wire_position)) =
      max 0 (s.workpiece_position - s.wire_position) :=
    max_eq_right (le_max_left _ _)
  refine ⟨?_, ?_, ?_⟩
  · simp only [updateShortCircuitDetection, clampGapState, sub_sub_cancel, hmx]
    split_ifs <;> rfl
  · simp only [updateShortCircuitDetection, clampGapState, sub_sub_cancel, hmx]
    split_ifs <;> rfl
  · intro h
    simp [getLambda, h]

/-- Witness for claim C7: the amended statement at the default parameters,
construction-time module state, the negative-gap no-short state, and zero
draws. -/
theorem claim_C7_witness :
    (updateShortCircuitDetection {} {} negGapState 0 0).1 =
      (updateShortCircuitDetection {} {} (clampGapState negGapState) 0 0).1 ∧
    ((updateShortCircuitDetection {} {} negGapState 0 0).2).is_short_circuit =
      ((updateShortCircuitDetection {} {}
        (clampGapState negGapState) 0 0).2).is_short_circuit ∧
    (getLambda {} negGapState).1 =
      Except.ok (lambdaValue {}
        (negGapState.workpiece_position - negGapState.wire_position)) := by
  obtain ⟨h1, h2, h3⟩ := claim_C7_theorem {} {} negGapState 0 0
  exact ⟨h1, h2, h3 rfl⟩

/-- One `MechanicsModule.update` call moves the applied acceleration by at
most `max_jerk_dt` and keeps it within `±max_acceleration` whenever the
previous applied acceleration was within those bounds. -/
theorem mechanicsUpdate_accel_step (mode : ControlMode)
    (p : MechanicsModuleParameters) (c : MechanicsConsts) (prev : ℝ)
    (s : EDMState) (hA : 0 ≤ p.max_acceleration) (hJ : 0 ≤ c.max_jerk_dt)
    (hprev : |prev| ≤ p.max_acceleration) :
    |(mechanicsUpdate mode p c prev s).1 - prev| ≤ c.max_jerk_dt ∧
    |(mechanicsUpdate mode p c prev s).1| ≤ p.max_acceleration := by
  rw [abs_le] at hprev
  simp only [mechanicsUpdate]
  split_ifs <;>
    constructor <;>
    rw [abs_le] <;>
    constructor <;>
    linarith

/-- Embeds `MechanicsModule.update` always leaves the wire velocity within
`±max_speed`. -/
theorem mechanicsUpdate_speed (mode : ControlMode)
    (p : MechanicsModuleParameters) (c : MechanicsConsts) (prev : ℝ)
    (s : EDMState) (hS : 0 ≤ p.max_speed) :
    |((mechanicsUpdate mode p c prev s).2).wire_velocity| ≤ p.max_speed := by
  simp only [mechanicsUpdate]
  split_ifs <;>
    rw [abs_le] <;>
    constructor <;>
    linarith

/-- Jerk and acceleration bounds hold along any run of mechanics updates
threading `prev_accel`, starting from any in-bounds previous
acceleration. -/
theorem mechanicsAccels_inv (mode : ControlMode)
    (p : MechanicsModuleParameters) (c : MechanicsConsts)
    (hA : 0 ≤ p.max_acceleration) (hJ : 0 ≤ c.max_jerk_dt) :
    ∀ (ss : List EDMState) (prev : ℝ), |prev| ≤ p.max_acceleration →
      List.Chain (fun a b => |b - a| ≤ c.max_jerk_dt) prev
        (mechanicsAccels mode p c ss prev) ∧
      ∀ a ∈ mechanicsAccels mode p c ss prev, |a| ≤ p.max_acceleration
  | [], _, _ => ⟨List.Chain.nil, by simp [mechanicsAccels]⟩
  | s :: rest, prev, h => by
      obtain ⟨h1, h2⟩ := mechanicsUpdate_accel_step mode p c prev s hA hJ h
      obtain ⟨ih1, ih2⟩ := mechanicsAccels_inv mode p c hA hJ rest
        ((mechanicsUpdate mode p c prev s).1) h2
      refine ⟨?_, ?_⟩
      · simp only [mechanicsAccels]
        exact List.Chain.cons h1 ih1
      · intro a ha
        simp only [mechanicsAccels] at ha
        rcases List.mem_cons.mp ha with rfl | ha2
        exacts [h2, ih2 _ ha2]

/-- Claim C4: along every sequence of `MechanicsModule.update` calls
starting from construction (`prev_accel = 0`), and for arbitrary process
states at each call: consecutive applied accelerations differ by at most
`max_jerk·dt` in magnitude (including the first step against the initial
0), every applied acceleration is within `±max_acceleration`, and the wire
velocity after every update is within `±max_speed`. -/
theorem claim_C4_theorem (mode : ControlMode) (p : MechanicsModuleParameters)
    (c : MechanicsConsts) (ss : List EDMState)
    (hA : 0 ≤ p.max_acceleration) (hJ : 0 ≤ c.max_jerk_dt)
    (hS : 0 ≤ p.max_speed) :
    List.Chain (fun a b => |b - a| ≤ c.max_jerk_dt) 0
      (mechanicsAccels mode p c ss 0) ∧
    (∀ a ∈ mechanicsAccels mode p c ss 0, |a| ≤ p.max_acceleration) ∧
    ∀ prev s, |((mechanicsUpdate mode p c prev s).2).wire_velocity| ≤
      p.max_speed := by
  obtain ⟨h1, h2⟩ := mechanicsAccels_inv mode p c hA hJ ss 0 (by simpa using hA)
  exact ⟨h1, h2, fun prev s => mechanicsUpdate_speed mode p c prev s hS⟩

/-- Witness for claim C4: the default parameters with the 1 µs-derived
constants, a two-step run over default states. -/
theorem claim_C4_witness :
    List.Chain
      (fun a b => |b - a| ≤ (MechanicsConsts.ofParams {} 1).max_jerk_dt) 0
      (mechanicsAccels ControlMode.position {} (MechanicsConsts.ofParams {} 1)
        [{}, {}] 0) ∧
    (∀ a ∈ mechanicsAccels ControlMode.position {}
        (MechanicsConsts.ofParams {} 1) [{}, {}] 0,
      |a| ≤ ({} : MechanicsModuleParameters).max_acceleration) ∧
    ∀ prev s,
      |((mechanicsUpdate ControlMode.position {}
          (MechanicsConsts.ofParams {} 1) prev s).2).wire_velocity| ≤
        ({} : MechanicsModuleParameters).max_speed :=
  claim_C4_theorem ControlMode.position {} (MechanicsConsts.ofParams {} 1)
    [{}, {}] (by norm_num) (by norm_num [MechanicsConsts.ofParams])
    (by norm_num)

/-- Embeds `fast_exp` maps nonnegative arguments into `[0, 1]`: the Padé branch is
a quotient of a positive numerator bounded by its denominator, and the
`exp(-x)` branch is `exp` of a nonpositive argument. -/
theorem fast_exp_mem (x : ℝ) (hx : 0 ≤ x) :
    0 ≤ fast_exp x ∧ fast_exp x ≤ 1 := by
  unfold fast_exp
  split_ifs with h
  · constructor
    · apply div_nonneg <;> linarith
    · rw [div_le_one (by linarith)]
      linarith
  · constructor
    · exact (Real.exp_pos _).le
    · calc Real.exp (-x) ≤ Real.exp 0 := Real.exp_le_exp.mpr (by linarith)
        _ = 1 := Real.exp_zero

/-- The debris factor computed by `DielectricModule.update` lies in
`[0, 1]` for nonnegative obstruction coefficient and density. -/
theorem debrisFactorCode_mem (p : DielectricModuleParameters) (ρ : ℝ)
    (hk : 0 ≤ p.debris_obstruction_coeff) (hρ : 0 ≤ ρ) :
    0 ≤ debrisFactorCode p ρ ∧ debrisFactorCode p ρ ≤ 1 := by
  have hx : 0 ≤ p.debris_obstruction_coeff * ρ := mul_nonneg hk hρ
  unfold debrisFactorCode
  split_ifs with h
  · exact fast_exp_mem _ hx
  · constructor
    · exact (Real.exp_pos _).le
    · calc Real.exp (-(p.debris_obstruction_coeff * ρ)) ≤ Real.exp 0 :=
          Real.exp_le_exp.mpr (by linarith)
        _ = 1 := Real.exp_zero

/-- The debris volume after the fresh-spark addition stays nonnegative for
nonnegative running volume and crater input. -/
theorem dielFreshVolume_nonneg (m : DielectricInternal) (s : EDMState)
    (hm : 0 ≤ m.debris_volume) (hc : 0 ≤ s.last_crater_volume) :
    0 ≤ dielFreshVolume m s := by
  unfold dielFreshVolume
  split_ifs <;> linarith

/-- The debris density computed by `DielectricModule.update` lies in
`[0, 1]` whenever the incoming debris volume and crater input are
nonnegative. -/
theorem dielDensity_mem (c : DielectricConsts) (m : DielectricInternal)
    (s : EDMState) (hm : 0 ≤ m.debris_volume) (hc : 0 ≤ s.last_crater_volume) :
    0 ≤ dielDensity c m s ∧ dielDensity c m s ≤ 1 := by
  have hdv := dielFreshVolume_nonneg m s hm hc
  unfold dielDensity
  split_ifs with h
  · exact ⟨le_min zero_le_one (div_nonneg hdv h.le), min_le_left _ _⟩
  · exact ⟨le_refl 0, zero_le_one⟩

/-- The recomputed flow condition lies in `[0, 1]` for a positive reference
gap, nonnegative obstruction coefficient, and nonnegative debris inputs. -/
theorem dielFlowFormula_mem (p : DielectricModuleParameters)
    (c : DielectricConsts) (m : DielectricInternal) (s : EDMState)
    (hr : 0 < p.reference_gap) (hk : 0 ≤ p.debris_obstruction_coeff)
    (hm : 0 ≤ m.debris_volume) (hc : 0 ≤ s.last_crater_volume) :
    0 ≤ dielFlowFormula p c m s ∧ dielFlowFormula p c m s ≤ 1 := by
  have hgap : (0 : ℝ) ≤ dielGapUm s :=
    le_trans (by norm_num) (le_max_left (1/1000) _)
  have hgf : 0 ≤ min 1 ((dielGapUm s / p.reference_gap) ^ 3) ∧
      min 1 ((dielGapUm s / p.reference_gap) ^ 3) ≤ 1 :=
    ⟨le_min zero_le_one (pow_nonneg (div_nonneg hgap hr.le) 3), min_le_left _ _⟩
  have hdf := debrisFactorCode_mem p (dielDensity c m s) hk
    (dielDensity_mem c m s hm hc).1
  unfold dielFlowFormula
  exact ⟨mul_nonneg hgf.1 hdf.1, mul_le_one₀ hgf.2 hdf.1 hdf.2⟩

/-- One `DielectricModule.update` call preserves the boundedness invariant
of the module state, and the process-state fields it syncs
(`debris_density`, `flow_rate`) coincide with the module fields. -/
theorem dielectricUpdate_inv (p : DielectricModuleParameters)
    (c : DielectricConsts) (m : DielectricInternal) (s : EDMState)
    (hr : 0 < p.reference_gap) (hk : 0 ≤ p.debris_obstruction_coeff)
    (hm : DielInv m) (hc : 0 ≤ s.last_crater_volume) :
    DielInv (dielectricUpdate p c m s).1 ∧
    ((dielectricUpdate p c m s).2).debris_density =
      ((dielectricUpdate p c m s).1).debris_density ∧
    ((dielectricUpdate p c m s).2).flow_rate =
      ((dielectricUpdate p c m s).1).flow_condition := by
  obtain ⟨hm1, hm2, hm3, hm4, hm5, hm6, hm7⟩ := hm
  have eflow : ((dielectricUpdate p c m s).1).flow_condition =
      (if dielRecompute c m s then dielFlowFormula p c m s
       else m.last_flow_condition) := rfl
  have hflow : 0 ≤ ((dielectricUpdate p c m s).1).flow_condition ∧
      ((dielectricUpdate p c m s).1).flow_condition ≤ 1 := by
    rw [eflow]
    split_ifs with h
    · exact dielFlowFormula_mem p c m s hr hk hm1 hc
    · exact ⟨hm6, hm7⟩
  have edens : ((dielectricUpdate p c m s).1).debris_density =
      dielDensity c m s := rfl
  have hdens : 0 ≤ ((dielectricUpdate p c m s).1).debris_density ∧
      ((dielectricUpdate p c m s).1).debris_density ≤ 1 := by
    rw [edens]
    exact dielDensity_mem c m s hm1 hc
  have hlf : 0 ≤ ((dielectricUpdate p c m s).1).last_flow_condition ∧
      ((dielectricUpdate p c m s).1).last_flow_condition ≤ 1 := by
    have elf : ((dielectricUpdate p c m s).1).last_flow_condition =
        (if dielRecompute c m s then
          (if dielRecompute c m s then dielFlowFormula p c m s
           else m.last_flow_condition)
         else m.last_flow_condition) := rfl
    rw [elf]
    split_ifs with h
    · exact dielFlowFormula_mem p c m s hr hk hm1 hc
    · exact ⟨hm6, hm7⟩
  have hdv : 0 ≤ ((dielectricUpdate p c m s).1).debris_volume := by
    have edv : ((dielectricUpdate p c m s).1).debris_volume =
        (if 1/1000 < (if dielRecompute c m s then dielFlowFormula p c m s
              else m.last_flow_condition) ∧ 1/1000 < dielFreshVolume m s then
          max 0 (dielFreshVolume m s -
            c.debris_removal_per_us *
              (if dielRecompute c m s then dielFlowFormula p c m s
               else m.last_flow_condition))
         else dielFreshVolume m s) := rfl
    rw [edv]
    split_ifs <;> first
      | exact le_max_left 0 _
      | exact dielFreshVolume_nonneg m s hm1 hc
  exact ⟨⟨hdv, hdens.1, hdens.2, hflow.1, hflow.2, hlf.1, hlf.2⟩, rfl, rfl⟩

/-- Any run of dielectric updates with nonnegative crater inputs keeps the
module invariant, starting from any invariant-satisfying module state. -/
theorem dielectricRun_inv (p : DielectricModuleParameters)
    (c : DielectricConsts) (hr : 0 < p.reference_gap)
    (hk : 0 ≤ p.debris_obstruction_coeff) :
    ∀ (ss : List EDMState) (m : DielectricInternal), DielInv m →
      (∀ t ∈ ss, 0 ≤ t.last_crater_volume) →
      DielInv (dielectricRun p c ss m)
  | [], _, hm, _ => hm
  | s :: rest, m, hm, hss => by
      have h1 := (dielectricUpdate_inv p c m s hr hk hm
        (hss s (by simp))).1
      exact dielectricRun_inv p c hr hk rest _ h1
        (fun t ht => hss t (by simp [ht]))

/-- Claim C3: after any finite sequence of `DielectricModule.update` calls
starting from the construction-time module state, with arbitrary
wire/workpiece positions and nonnegative crater-volume inputs, the
`debris_density` and `flow_rate` written into the process state lie in
`[0, 1]` (for a positive reference gap and nonnegative obstruction
coefficient, as in the defaults). -/
theorem claim_C3_theorem (p : DielectricModuleParameters)
    (c : DielectricConsts) (ss : List EDMState) (s : EDMState)
    (hss : ∀ t ∈ ss, 0 ≤ t.last_crater_volume)
    (hs : 0 ≤ s.last_crater_volume) (hr : 0 < p.reference_gap)
    (hk : 0 ≤ p.debris_obstruction_coeff) :
    (0 ≤ ((dielectricUpdate p c (dielectricRun p c ss {}) s).2).debris_density ∧
      ((dielectricUpdate p c (dielectricRun p c ss {}) s).2).debris_density ≤ 1) ∧
    (0 ≤ ((dielectricUpdate p c (dielectricRun p c ss {}) s).2).flow_rate ∧
      ((dielectricUpdate p c (dielectricRun p c ss {}) s).2).flow_rate ≤ 1) := by
  have hinit : DielInv {} := by
    refine ⟨le_refl 0, le_refl 0, zero_le_one, le_refl 0, zero_le_one,
      le_refl 0, zero_le_one⟩
  have hrun := dielectricRun_inv p c hr hk ss {} hinit hss
  obtain ⟨⟨_, h2, h3, h4, h5, _, _⟩, e1, e2⟩ :=
    dielectricUpdate_inv p c _ s hr hk hrun hs
  rw [e1, e2]
  exact ⟨⟨h2, h3⟩, ⟨h4, h5⟩⟩

/-- Witness for claim C3: the default parameters, the default-geometry
constants, a one-element run followed by a final update, all on default
states (crater volume 0). -/
theorem claim_C3_witness :
    (0 ≤ ((dielectricUpdate {} defaultDielConsts
        (dielectricRun {} defaultDielConsts [{}] {}) {}).2).debris_density ∧
      ((dielectricUpdate {} defaultDielConsts
        (dielectricRun {} defaultDielConsts [{}] {}) {}).2).debris_density ≤ 1) ∧
    (0 ≤ ((dielectricUpdate {} defaultDielConsts
        (dielectricRun {} defaultDielConsts [{}] {}) {}).2).flow_rate ∧
      ((dielectricUpdate {} defaultDielConsts
        (dielectricRun {} defaultDielConsts [{}] {}) {}).2).flow_rate ≤ 1) :=
  claim_C3_theorem {} defaultDielConsts [{}] {}
    (by simp) (by norm_num) (by norm_num) (by norm_num)

/-- Where the Padé branch of `fast_exp` is not taken (argument at least
1/2), the code's debris factor is the exact exponential. -/
theorem debrisFactorCode_eq_exp (p : DielectricModuleParameters) (ρ : ℝ)
    (h : 1/2 ≤ p.debris_obstruction_coeff * ρ) :
    debrisFactorCode p ρ = Real.exp (-(p.debris_obstruction_coeff * ρ)) := by
  unfold debrisFactorCode fast_exp
  split_ifs with h1 h2 <;> first | rfl | linarith

/-- Embeds `exp(−2/5)` is not `2/3`: raising to the fifth power gives
`exp 2 = (3/2)⁵ = 7.59375`, contradicting `exp 2 < 2.7182818286² < 7.59375`. -/
theorem exp_neg_twofifths_ne : Real.exp (-(2/5)) ≠ (2/3 : ℝ) := by
  intro h
  have he2 : Real.exp 2 < 243/32 := by
    have e : Real.exp 2 = Real.exp 1 * Real.exp 1 := by
      rw [← Real.exp_add]; norm_num
    have h1 := Real.exp_one_lt_d9
    nlinarith [Real.exp_pos 1]
  have hx : Real.exp (2/5) = 3/2 := by
    have hinv : Real.exp (-(2/5)) * Real.exp (2/5 : ℝ) = 1 := by
      rw [← Real.exp_add]; norm_num
    rw [h] at hinv
    nlinarith [Real.exp_pos (2/5 : ℝ)]
  have h5 : Real.exp (((5:ℕ):ℝ) * (2/5)) = Real.exp (2/5) ^ 5 :=
    Real.exp_nat_mul _ 5
  rw [show (((5:ℕ):ℝ) * (2/5)) = 2 by push_cast; norm_num, hx] at h5
  rw [h5] at he2
  norm_num at he2

/-- The gap seen by the dielectric update on `padeCaseState` is exactly the
reference gap, 25 µm. -/
theorem padeCase_gap : dielGapUm padeCaseState = 25 := by
  unfold dielGapUm
  rw [show padeCaseState.workpiece_position - padeCaseState.wire_position
    = (25 : ℝ) by norm_num [padeCaseState]]
  exact max_eq_right (by norm_num)

/-- The debris density the dielectric update computes on `padeCaseState`
from the construction-time module state is `2/5`. -/
theorem padeCase_density : dielDensity defaultDielConsts {} padeCaseState = 2/5 := by
  have hcav : dielCavity defaultDielConsts padeCaseState = Real.pi / 20 := by
    unfold dielCavity defaultDielConsts DielectricConsts.ofConfig
    rw [padeCase_gap]
    ring
  have hfresh : dielFresh padeCaseState :=
    ⟨rfl, rfl, by unfold padeCaseState; positivity⟩
  have hdv : dielFreshVolume {} padeCaseState = Real.pi / 50 := by
    unfold dielFreshVolume
    rw [if_pos hfresh]
    show (0 : ℝ) + padeCaseState.last_crater_volume = Real.pi / 50
    unfold padeCaseState
    norm_num
  unfold dielDensity
  rw [hcav, hdv, if_pos (by positivity : (0:ℝ) < Real.pi / 20)]
  rw [show Real.pi / 50 / (Real.pi / 20) = 2/5 by
    rw [div_eq_iff (by positivity : (Real.pi / 20) ≠ 0)]; ring]
  exact min_eq_right (by norm_num)


/-- The dielectric update on `padeCaseState` recomputes the flow condition
(the construction-time gap cache is −1, far from 25). -/
theorem padeCase_recompute : dielRecompute defaultDielConsts {} padeCaseState := by
  unfold dielRecompute
  left
  rw [padeCase_gap]
  rw [show (25 : ℝ) - ({} : DielectricInternal).last_gap_um = 26 by norm_num]
  rw [abs_of_pos (by norm_num)]
  norm_num

/-- Claim C6 counterexample: on a concrete recomputing update (default
parameters and geometry, gap 25 µm, fresh spark with crater volume π/50,
hence debris density 2/5) the code's flow condition is the Padé value
`(1 − 1/5)/(1 + 1/5) = 2/3`, which differs from the spec's exact formula
`min(1,(25/25)³)·exp(−1·(2/5)) = exp(−2/5) ≈ 0.6703`. -/
theorem claim_C6_counterexample :
    dielRecompute defaultDielConsts {} padeCaseState ∧
    ((dielectricUpdate {} defaultDielConsts {} padeCaseState).2).debris_density
      = 2/5 ∧
    ((dielectricUpdate {} defaultDielConsts {} padeCaseState).2).flow_rate
      = 2/3 ∧
    flowConditionSpecFormula {} (dielGapUm padeCaseState)
        (((dielectricUpdate {} defaultDielConsts {}
          padeCaseState).2).debris_density) ≠
      ((dielectricUpdate {} defaultDielConsts {} padeCaseState).2).flow_rate := by
  have edens : ((dielectricUpdate {} defaultDielConsts {}
      padeCaseState).2).debris_density = dielDensity defaultDielConsts {}
      padeCaseState := rfl
  have hdens : ((dielectricUpdate {} defaultDielConsts {}
      padeCaseState).2).debris_density = 2/5 := by
    rw [edens, padeCase_density]
  have eflow : ((dielectricUpdate {} defaultDielConsts {}
      padeCaseState).2).flow_rate =
      (if dielRecompute defaultDielConsts {} padeCaseState then
        dielFlowFormula {} defaultDielConsts {} padeCaseState
       else ({} : DielectricInternal).last_flow_condition) := rfl
  have hflow : ((dielectricUpdate {} defaultDielConsts {}
      padeCaseState).2).flow_rate = 2/3 := by
    rw [eflow, if_pos padeCase_recompute]
    unfold dielFlowFormula
    rw [padeCase_gap, padeCase_density]
    norm_num [debrisFactorCode, fast_exp]
  refine ⟨padeCase_recompute, hdens, hflow, ?_⟩
  rw [hdens, hflow, padeCase_gap]
  rw [show flowConditionSpecFormula {} 25 (2/5) = Real.exp (-(2/5)) by
    norm_num [flowConditionSpecFormula]]
  exact exp_neg_twofifths_ne

/-- Claim C6 (amended): whenever `DielectricModule.update` recomputes the
flow condition, the result equals
`min(1, (gap/reference_gap)³) × F(coeff·density)` where `F` is the code's
`fast_exp`-based debris factor — the Padé quotient `(1−x/2)/(1+x/2)` for
`x < 1/2` and the exact `exp(−x)` otherwise.  The spec's exact-exponential
formula is recovered at zero debris density and whenever
`coeff·density ≥ 1/2`, but not in the Padé region `0 < coeff·density < 1/2`. -/
theorem claim_C6_theorem (p : DielectricModuleParameters)
    (c : DielectricConsts) (m : DielectricInternal) (s : EDMState)
    (h : dielRecompute c m s) :
    ((dielectricUpdate p c m s).2).flow_rate =
      min 1 ((dielGapUm s / p.reference_gap) ^ 3) *
        debrisFactorCode p (((dielectricUpdate p c m s).2).debris_density) ∧
    (p.debris_obstruction_coeff *
        (((dielectricUpdate p c m s).2).debris_density) = 0 →
      ((dielectricUpdate p c m s).2).flow_rate =
        flowConditionSpecFormula p (dielGapUm s)
          (((dielectricUpdate p c m s).2).debris_density)) ∧
    (1/2 ≤ p.debris_obstruction_coeff *
        (((dielectricUpdate p c m s).2).debris_density) →
      ((dielectricUpdate p c m s).2).flow_rate =
        flowConditionSpecFormula p (dielGapUm s)
          (((dielectricUpdate p c m s).2).debris_density)) := by
  have edens : ((dielectricUpdate p c m s).2).debris_density =
      dielDensity c m s := rfl
  have eflow : ((dielectricUpdate p c m s).2).flow_rate =
      (if dielRecompute c m s then dielFlowFormula p c m s
       else m.last_flow_condition) := rfl
  have hflow : ((dielectricUpdate p c m s).2).flow_rate =
      dielFlowFormula p c m s := by rw [eflow, if_pos h]
  refine ⟨?_, ?_, ?_⟩
  · rw [hflow, edens]
    rfl
  · intro h0
    rw [edens] at h0
    rw [hflow, edens]
    unfold dielFlowFormula flowConditionSpecFormula
    rw [debrisFactorCode, h0]
    norm_num [fast_exp, Real.exp_zero]
  · intro hhalf
    rw [edens] at hhalf
    rw [hflow, edens]
    unfold dielFlowFormula flowConditionSpecFormula
    rw [debrisFactorCode_eq_exp p _ hhalf]

/-- Witness for claim C6: the amended statement at the default parameters
and geometry, the construction-time module state, and the all-defaults
process state (the first update always recomputes: the cached gap is −1). -/
theorem claim_C6_witness :
    ((dielectricUpdate {} defaultDielConsts {} ({} : EDMState)).2).flow_rate =
      min 1 ((dielGapUm {} / ({} : DielectricModuleParameters).reference_gap) ^ 3) *
        debrisFactorCode {}
          (((dielectricUpdate {} defaultDielConsts {} ({} : EDMState)).2).debris_density) ∧
    (({} : DielectricModuleParameters).debris_obstruction_coeff *
        (((dielectricUpdate {} defaultDielConsts {} ({} : EDMState)).2).debris_density) = 0 →
      ((dielectricUpdate {} defaultDielConsts {} ({} : EDMState)).2).flow_rate =
        flowConditionSpecFormula {} (dielGapUm {})
          (((dielectricUpdate {} defaultDielConsts {} ({} : EDMState)).2).debris_density)) ∧
    (1/2 ≤ ({} : DielectricModuleParameters).debris_obstruction_coeff *
        (((dielectricUpdate {} defaultDielConsts {} ({} : EDMState)).2).debris_density) →
      ((dielectricUpdate {} defaultDielConsts {} ({} : EDMState)).2).flow_rate =
        flowConditionSpecFormula {} (dielGapUm {})
          (((dielectricUpdate {} defaultDielConsts {} ({} : EDMState)).2).debris_density)) := by
  apply claim_C6_theorem
  unfold dielRecompute
  left
  rw [show dielGapUm {} = 1/1000 by
    unfold dielGapUm
    rw [show ({} : EDMState).workpiece_position - ({} : EDMState).wire_position
      = (0:ℝ) by norm_num]
    exact max_eq_left (by norm_num)]
  rw [show (1/1000 : ℝ) - ({} : DielectricInternal).last_gap_um = 1001/1000 by
    norm_num]
  rw [abs_of_pos (by norm_num)]
  norm_num

/-- Short-circuit detection writes neither the generator settings, the
servo target, nor the servo timer. -/
theorem updateShortCircuitDetection_frame (p : IgnitionModuleParameters)
    (m : IgnitionInternal) (s : EDMState) (r1 r2 : ℝ) :
    genFields ((updateShortCircuitDetection p m s r1 r2).2) = genFields s ∧
    ((updateShortCircuitDetection p m s r1 r2).2).time_since_servo =
      s.time_since_servo := by
  simp only [updateShortCircuitDetection]
  split_ifs <;> exact ⟨rfl, rfl⟩

/-- Embeds `_handle_idle_state` writes neither the generator settings, the servo
target, nor the servo timer. -/
theorem handleIdleState_frame (p : IgnitionModuleParameters)
    (ct : CurrentsTable) (m : IgnitionInternal) (s : EDMState) (r l : ℝ) :
    genFields ((handleIdleState p ct m s r l).2) = genFields s ∧
    ((handleIdleState p ct m s r l).2).time_since_servo =
      s.time_since_servo := by
  simp only [handleIdleState]
  split_ifs <;> exact ⟨rfl, rfl⟩

/-- Embeds `_handle_spark_state` writes neither the generator settings, the servo
target, nor the servo timer. -/
theorem handleSparkState_frame (p : IgnitionModuleParameters)
    (ct : CurrentsTable) (m : IgnitionInternal) (s : EDMState) :
    genFields ((handleSparkState p ct m s).2) = genFields s ∧
    ((handleSparkState p ct m s).2).time_since_servo = s.time_since_servo := by
  simp only [handleSparkState]
  split_ifs <;> exact ⟨rfl, rfl⟩

/-- Embeds `_handle_short_state` writes neither the generator settings, the servo
target, nor the servo timer. -/
theorem handleShortState_frame (p : IgnitionModuleParameters)
    (ct : CurrentsTable) (m : IgnitionInternal) (s : EDMState) :
    genFields ((handleShortState p ct m s).2) = genFields s ∧
    ((handleShortState p ct m s).2).time_since_servo = s.time_since_servo := by
  simp only [handleShortState]
  split_ifs <;> exact ⟨rfl, rfl⟩

/-- Embeds `_handle_rest_state` writes neither the generator settings, the servo
target, nor the servo timer. -/
theorem handleRestState_frame (p : IgnitionModuleParameters)
    (m : IgnitionInternal) (s : EDMState) :
    genFields ((handleRestState p m s).2) = genFields s ∧
    ((handleRestState p m s).2).time_since_servo = s.time_since_servo := by
  simp only [handleRestState]
  split_ifs <;> exact ⟨rfl, rfl⟩

/-- Embeds `IgnitionModule.update` writes neither the generator settings, the
servo target, nor the servo timer. -/
theorem ignitionUpdate_frame (p : IgnitionModuleParameters)
    (ct : CurrentsTable) (m : IgnitionInternal) (s : EDMState)
    (d : IgnitionDraws) :
    genFields ((ignitionUpdate p ct m s d).2) = genFields s ∧
    ((ignitionUpdate p ct m s d).2).time_since_servo = s.time_since_servo := by
  simp only [ignitionUpdate]
  split_ifs <;>
    first
      | exact ⟨(handleIdleState_frame _ _ _ _ _ _).1.trans
            (updateShortCircuitDetection_frame _ _ _ _ _).1,
          (handleIdleState_frame _ _ _ _ _ _).2.trans
            (updateShortCircuitDetection_frame _ _ _ _ _).2⟩
      | exact ⟨(handleSparkState_frame _ _ _ _).1.trans
            (updateShortCircuitDetection_frame _ _ _ _ _).1,
          (handleSparkState_frame _ _ _ _).2.trans
            (updateShortCircuitDetection_frame _ _ _ _ _).2⟩
      | exact ⟨(handleShortState_frame _ _ _ _).1.trans
            (updateShortCircuitDetection_frame _ _ _ _ _).1,
          (handleShortState_frame _ _ _ _).2.trans
            (updateShortCircuitDetection_frame _ _ _ _ _).2⟩
      | exact ⟨(handleRestState_frame _ _ _).1.trans
            (updateShortCircuitDetection_frame _ _ _ _ _).1,
          (handleRestState_frame _ _ _).2.trans
            (updateShortCircuitDetection_frame _ _ _ _ _).2⟩
      | exact ⟨(updateShortCircuitDetection_frame _ _ _ _ _).1,
          (updateShortCircuitDetection_frame _ _ _ _ _).2⟩

/-- The material module writes neither the generator settings, the servo
target, nor the servo timer. -/
theorem materialUpdate_frame (craterLaw advanceLaw : EDMState → ℝ)
    (s : EDMState) :
    genFields (materialUpdate craterLaw advanceLaw s) = genFields s ∧
    (materialUpdate craterLaw advanceLaw s).time_since_servo =
      s.time_since_servo := by
  simp only [materialUpdate]
  split_ifs <;> exact ⟨rfl, rfl⟩

/-- Embeds `DielectricModule.update` writes neither the generator settings, the
servo target, nor the servo timer. -/
theorem dielectricUpdate_frame (p : DielectricModuleParameters)
    (c : DielectricConsts) (m : DielectricInternal) (s : EDMState) :
    genFields ((dielectricUpdate p c m s).2) = genFields s ∧
    ((dielectricUpdate p c m s).2).time_since_servo = s.time_since_servo :=
  ⟨rfl, rfl⟩

/-- Embeds `WireModule.update` writes neither the generator settings, the servo
target, nor the servo timer. -/
theorem wireUpdate_frame (p : WireModuleParameters) (c : WireConsts)
    (mat : WireMaterial) (w : WireInternal) (s : EDMState) :
    genFields ((wireUpdate p c mat w s).2) = genFields s ∧
    ((wireUpdate p c mat w s).2).time_since_servo = s.time_since_servo := by
  constructor <;> (simp only [wireUpdate]; split <;> rfl)

/-- Embeds `MechanicsModule.update` writes neither the generator settings, the
servo target, nor the servo timer. -/
theorem mechanicsUpdate_frame (mode : ControlMode)
    (p : MechanicsModuleParameters) (c : MechanicsConsts) (prev : ℝ)
    (s : EDMState) :
    genFields ((mechanicsUpdate mode p c prev s).2) = genFields s ∧
    ((mechanicsUpdate mode p c prev s).2).time_since_servo =
      s.time_since_servo :=
  ⟨rfl, rfl⟩

/-- Embeds `_check_termination` writes neither the generator settings, the servo
target, nor the servo timer. -/
theorem checkTermination_frame (s : EDMState) :
    genFields ((checkTermination s).2) = genFields s ∧
    ((checkTermination s).2).time_since_servo = s.time_since_servo := by
  simp only [checkTermination]
  split_ifs <;> exact ⟨rfl, rfl⟩

/-- A `step` call taken strictly before the servo interval elapses is not a
control tick: it returns a null observation and zero reward, leaves the
generator settings and the servo target untouched, and advances the servo
timer by at most `dt` (exactly `dt`, or not at all on the early broken-wire
return). -/
theorem step_not_ctrl (cfg : EnvironmentConfig) (M : EnvModules)
    (d : IgnitionDraws) (a : EDMAction) (env : EnvInternal) (s : EDMState)
    (h : s.time_since_servo < cfg.servo_interval) :
    (WireEDMEnv.step cfg M d a env s).1.obs = none ∧
    (WireEDMEnv.step cfg M d a env s).1.reward = 0 ∧
    genFields ((WireEDMEnv.step cfg M d a env s).2.2) = genFields s ∧
    ((WireEDMEnv.step cfg M d a env s).2.2).time_since_servo ≤
      s.time_since_servo + cfg.dt := by
  have hc : ¬(cfg.servo_interval ≤ s.time_since_servo) := not_le.mpr h
  have hpipe : genFields ((wireUpdate M.wireParams M.wireConsts M.wireMat
      env.wire ((dielectricUpdate M.dielectricParams M.dielectricConsts
        env.dielectric (materialUpdate M.craterLaw M.advanceLaw
          ((ignitionUpdate M.ignitionParams M.currents env.ignition
            s d).2))).2)).2) = genFields s ∧
      ((wireUpdate M.wireParams M.wireConsts M.wireMat
      env.wire ((dielectricUpdate M.dielectricParams M.dielectricConsts
        env.dielectric (materialUpdate M.craterLaw M.advanceLaw
          ((ignitionUpdate M.ignitionParams M.currents env.ignition
            s d).2))).2)).2).time_since_servo = s.time_since_servo :=
    ⟨(wireUpdate_frame _ _ _ _ _).1.trans
        ((dielectricUpdate_frame _ _ _ _).1.trans
          ((materialUpdate_frame _ _ _).1.trans
            (ignitionUpdate_frame _ _ _ _ _).1)),
      (wireUpdate_frame _ _ _ _ _).2.trans
        ((dielectricUpdate_frame _ _ _ _).2.trans
          ((materialUpdate_frame _ _ _).2.trans
            (ignitionUpdate_frame _ _ _ _ _).2))⟩
  have hmech : genFields ((mechanicsUpdate M.mechanicsMode M.mechanicsParams
      M.mechanicsConsts env.mechanics_prev_accel
      ((wireUpdate M.wireParams M.wireConsts M.wireMat
      env.wire ((dielectricUpdate M.dielectricParams M.dielectricConsts
        env.dielectric (materialUpdate M.craterLaw M.advanceLaw
          ((ignitionUpdate M.ignitionParams M.currents env.ignition
            s d).2))).2)).2)).2) = genFields s ∧
      ((mechanicsUpdate M.mechanicsMode M.mechanicsParams
      M.mechanicsConsts env.mechanics_prev_accel
      ((wireUpdate M.wireParams M.wireConsts M.wireMat
      env.wire ((dielectricUpdate M.dielectricParams M.dielectricConsts
        env.dielectric (materialUpdate M.craterLaw M.advanceLaw
          ((ignitionUpdate M.ignitionParams M.currents env.ignition
            s d).2))).2)).2)).2).time_since_servo = s.time_since_servo :=
    ⟨(mechanicsUpdate_frame _ _ _ _ _).1.trans hpipe.1,
      (mechanicsUpdate_frame _ _ _ _ _).2.trans hpipe.2⟩
  refine ⟨?_, ?_, ?_, ?_⟩
  · simp only [WireEDMEnv.step, if_neg hc]
    split <;> rfl
  · simp only [WireEDMEnv.step, if_neg hc]
    split <;> rfl
  · simp only [WireEDMEnv.step, if_neg hc]
    split
    · exact hpipe.1
    · refine (checkTermination_frame _).1.trans ?_
      split <;> exact hmech.1
  · simp only [WireEDMEnv.step, if_neg hc]
    split
    · exact le_trans (le_of_eq hpipe.2) (Nat.le_add_right _ _)
    · refine le_of_eq ((checkTermination_frame _).2.trans ?_)
      split <;> exact congrArg (· + cfg.dt) hmech.2

/-- Along any run of steps that stays strictly inside the first servo
interval, every step returns a null observation and zero reward, and the
generator settings and servo target are never written. -/
theorem runSteps_null (cfg : EnvironmentConfig) (M : EnvModules)
    (hdt : 0 < cfg.dt) :
    ∀ (das : List (IgnitionDraws × EDMAction)) (env : EnvInternal)
      (s : EDMState),
      s.time_since_servo + das.length * cfg.dt ≤ cfg.servo_interval →
      (∀ r ∈ (runSteps cfg M das env s).1, r.obs = none ∧ r.reward = 0) ∧
      genFields ((runSteps cfg M das env s).2.2) = genFields s
  | [], env, s, _ => ⟨by simp [runSteps], rfl⟩
  | da :: rest, env, s, hlen => by
      have hdtle : cfg.dt ≤ (rest.length + 1) * cfg.dt :=
        Nat.le_mul_of_pos_left cfg.dt (Nat.succ_pos rest.length)
      have hlen' : s.time_since_servo + (rest.length + 1) * cfg.dt ≤
          cfg.servo_interval := by
        simpa using hlen
      have hlt : s.time_since_servo < cfg.servo_interval := by omega
      obtain ⟨ho, hr, hg, ht⟩ := step_not_ctrl cfg M da.1 da.2 env s hlt
      have hsm : (rest.length + 1) * cfg.dt = rest.length * cfg.dt + cfg.dt := by
        ring
      have hlen2 : ((WireEDMEnv.step cfg M da.1 da.2 env s).2.2).time_since_servo
          + rest.length * cfg.dt ≤ cfg.servo_interval := by omega
      obtain ⟨ih1, ih2⟩ := runSteps_null cfg M hdt rest
        (WireEDMEnv.step cfg M da.1 da.2 env s).2.1
        (WireEDMEnv.step cfg M da.1 da.2 env s).2.2 hlen2
      refine ⟨?_, ih2.trans hg⟩
      intro r hrm
      simp only [runSteps] at hrm
      rcases List.mem_cons.mp hrm with rfl | h2
      · exact ⟨ho, hr⟩
      · exact ih1 _ h2

/-- Claim C10: after `reset`, `time_since_servo` is 0, so with a positive
servo interval the very first `step` call is not a control tick and the
action passed to it is never applied (the step result and the new states
are identical for any two actions); and as long as fewer than
`servo_interval / dt` steps have run — i.e. before the first control tick —
every step returns a null observation and zero reward, and the generator
settings and the servo target keep their reset defaults
`(None, None, None, None, 0)`. -/
theorem claim_C10_theorem (cfg : EnvironmentConfig) (M : EnvModules)
    (d : IgnitionDraws) (a a2 : EDMAction) (env env2 : EnvInternal)
    (das : List (IgnitionDraws × EDMAction))
    (hdt : 0 < cfg.dt) (hsi : 0 < cfg.servo_interval)
    (hlen : das.length * cfg.dt ≤ cfg.servo_interval) :
    (WireEDMEnv.reset cfg).time_since_servo = 0 ∧
    WireEDMEnv.step cfg M d a env (WireEDMEnv.reset cfg) =
      WireEDMEnv.step cfg M d a2 env (WireEDMEnv.reset cfg) ∧
    (∀ r ∈ (runSteps cfg M das env2 (WireEDMEnv.reset cfg)).1,
      r.obs = none ∧ r.reward = 0) ∧
    genFields ((runSteps cfg M das env2 (WireEDMEnv.reset cfg)).2.2) =
      (none, none, none, none, 0) := by
  have h0 : (WireEDMEnv.reset cfg).time_since_servo = 0 := rfl
  have hc : ¬(cfg.servo_interval ≤ (WireEDMEnv.reset cfg).time_since_servo) := by
    rw [h0]; omega
  refine ⟨h0, ?_, ?_⟩
  · simp only [WireEDMEnv.step, if_neg hc]
  · have hrun := runSteps_null cfg M hdt das env2 (WireEDMEnv.reset cfg)
      (by rw [h0, Nat.zero_add]; exact hlen)
    exact ⟨hrun.1, hrun.2⟩

/-- Witness for claim C10: the default configuration (dt 1 µs, servo
interval 1000 µs), the sample module bundle, a one-step run. -/
theorem claim_C10_witness :
    (WireEDMEnv.reset {}).time_since_servo = 0 ∧
    WireEDMEnv.step {} sampleModules ⟨0, 0, 0, 0⟩ ⟨0, ⟨80, 5, 3, 80⟩⟩
        sampleEnvInternal (WireEDMEnv.reset {}) =
      WireEDMEnv.step {} sampleModules ⟨0, 0, 0, 0⟩ ⟨1, ⟨100, 9, 2, 40⟩⟩
        sampleEnvInternal (WireEDMEnv.reset {}) ∧
    (∀ r ∈ (runSteps {} sampleModules
        [(⟨0, 0, 0, 0⟩, ⟨0, ⟨80, 5, 3, 80⟩⟩)] sampleEnvInternal
        (WireEDMEnv.reset {})).1, r.obs = none ∧ r.reward = 0) ∧
    genFields ((runSteps {} sampleModules
        [(⟨0, 0, 0, 0⟩, ⟨0, ⟨80, 5, 3, 80⟩⟩)] sampleEnvInternal
        (WireEDMEnv.reset {})).2.2) = (none, none, none, none, 0) :=
  claim_C10_theorem {} sampleModules ⟨0, 0, 0, 0⟩ ⟨0, ⟨80, 5, 3, 80⟩⟩
    ⟨1, ⟨100, 9, 2, 40⟩⟩ sampleEnvInternal sampleEnvInternal
    [(⟨0, 0, 0, 0⟩, ⟨0, ⟨80, 5, 3, 80⟩⟩)]
    (by norm_num) (by norm_num) (by norm_num)





